import Mathlib

/-!
# ADMM-PD soft-body session manager (`intern/softbody/admmpd_api.cpp`)

A shallow embedding of the boundary code between the host object and the
ADMM-PD solver, followed by theorems about it.

Conventions of the embedding.

* A pointer is an `Option`; `none` is the null pointer.
* `float` and `double` values are modelled by the rational numbers they
  denote; the clamp `0.499f` is the number that this `float` literal denotes.
  Rounding of arithmetic, infinities and NaN are outside the model.
* `int` values are modelled by `Int`; the code performs no `int` arithmetic
  that could overflow on them apart from the `NUM-1` of an enumeration.
* The solver, the mesh classes, the collision classes and the remesher live
  in other translation units.  Their calls are taken from a record of
  collaborators (`Env`), so every theorem holds for every behaviour of them.
* A call that can throw `std::exception` returns the state it left behind
  together with the message of the exception, if any.
* A function whose C++ body can dereference a null pointer returns an
  `Option`; `none` stands for that undefined behaviour.
-/

namespace Admmpd

/-! ## Data model -/

/-- Dense matrix of scalars (`Eigen::MatrixXd`), one inner list per row. -/
abbrev Mat := List (List Rat)

/-- Tunables of the host soft-body settings (`SoftBody`) read by this file. -/
structure SoftBody where
  admmpd_max_admm_iters : Int
  admmpd_converge_eps : Rat
  admmpd_goalstiff : Rat
  admmpd_collisionstiff : Rat
  admmpd_floor_z : Rat
  admmpd_self_collision : Int
  admmpd_loglevel : Int
  admmpd_gravity : Rat
  admmpd_density_kgm3 : Rat
  admmpd_youngs_exp : Rat
  admmpd_poisson : Rat
  admmpd_linsolver : Int
  admmpd_material : Int
  admmpd_substeps : Int
  admmpd_embed_res : Int
deriving DecidableEq, Repr

/-- Solver options (`admmpd::Options`), the fields this file reads or writes. -/
structure Options where
  timestep_s : Rat
  max_admm_iters : Int
  min_res : Rat
  mult_pk : Rat
  mult_ck : Rat
  floor : Rat
  self_collision : Bool
  log_level : Int
  grav : Rat × Rat × Rat
  density_kgm3 : Rat
  youngs : Rat
  poisson : Rat
  linsolver : Int
  elastic_material : Int
deriving DecidableEq, Repr

/-- Host object (`Object`): its type tag, its soft-body settings (a pointer)
and a handle standing for the mesh data and transform read by
`vecs_from_object`. -/
structure Object where
  type : Int
  soft : Option SoftBody
  geom : Nat
deriving DecidableEq, Repr

/-- The three geometry representations (`TetMesh`, `EmbeddedMesh`,
`TriangleMesh`). -/
inductive MeshKind where
  | TetMesh
  | EmbeddedMesh
  | TriangleMesh
deriving DecidableEq, Repr

/-- Modelled from the spec: the class `admmpd::Mesh` (declared in
`admmpd_mesh.h`, absent here).  It carries the rest-state vertices of the
simulated primitives and of the rendered facets (both reached through
pointers), the subdivision option of the embedded variant, the per-vertex pin
targets `(index, position, stiffness)`, and further buffers private to the
mesh. -/
structure Mesh where
  kind : MeshKind
  max_subdiv_levels : Int := 0
  rest_prim_verts : Option Mat := none
  rest_facet_verts : Option Mat := none
  pins : List (Int × (Rat × Rat × Rat) × Rat) := []
  internal : List Rat := []
deriving DecidableEq, Repr

/-- Per-frame obstacle geometry handed to `Collision::set_obstacles`. -/
structure Obstacles where
  verts_0 : List Rat
  verts_1 : List Rat
  nv : Int
  faces : List Nat
  nf : Int
deriving DecidableEq, Repr

/-- Modelled from the spec: the class `admmpd::Collision` (declared in
`admmpd_collision.h`, absent here): the transient obstacle snapshot and
further buffers private to the adapter. -/
structure Collision where
  obstacles : Option Obstacles := none
  internal : List Rat := []
deriving DecidableEq, Repr

/-- Modelled from the spec: the class `admmpd::SolverData` (declared in
`admmpd_types.h`, absent here): current positions `x`, current velocities
`v`, the snapshot `x_start`, and further buffers private to the solver. -/
structure SolverData where
  x : Mat := []
  v : Mat := []
  x_start : Mat := []
  internal : List Rat := []
deriving DecidableEq, Repr

/-- The solver handle (`admmpd::Solver`); it carries no data of its own. -/
structure Solver where
deriving DecidableEq, Repr

/-- The record `ADMMPDInternalData`; every owning pointer is an `Option`. -/
structure ADMMPDInternalData where
  collision : Option Collision := none
  mesh : Option Mesh := none
  options : Option Options := none
  data : Option SolverData := none
  solver : Option Solver := none
  substeps : Int := 0
deriving DecidableEq, Repr

/-- The record `ADMMPDInterfaceData` (declared in `admmpd_api.h`): the fields
named in this file.  The buffer `last_error` is a list of 256 characters. -/
structure ADMMPDInterfaceData where
  out_totverts : Int
  mesh_totverts : Int
  mesh_totfaces : Int
  in_framerate : Rat
  last_error : List Char
  idata : Option ADMMPDInternalData
deriving DecidableEq, Repr

/-- The record `TetGenRemeshData` exchanged with the external remesher. -/
structure TetGenRemeshData where
  in_verts : List Rat := []
  in_totverts : Int := 0
  in_faces : List Nat := []
  in_totfaces : Int := 0
  out_verts : List Rat := []
  out_totverts : Int := 0
  out_facets : List Nat := []
  out_totfacets : Int := 0
  out_tets : List Nat := []
  out_tottets : Int := 0
deriving DecidableEq, Repr

/-- What a call of `Mesh::create` leaves behind: the mesh object after the
call and either the returned success flag or the message of a thrown
`std::exception`. -/
structure CreateResult where
  mesh : Mesh
  outcome : Except String Bool

/-- What a call of `Solver::init` leaves behind: the solver data after the
call and the message of a thrown `std::exception`, if any. -/
structure InitResult where
  data : SolverData
  fault : Option String

/-- Arguments of one call of `Solver::solve`. -/
structure SolveCall where
  mesh : Option Mesh
  options : Options
  data : SolverData
  collision : Option Collision
deriving DecidableEq, Repr

/-- What a call of `Solver::solve` leaves behind: the solver data and the
collision adapter after the call, and the message of a thrown
`std::exception`, if any. -/
structure SolveResult where
  data : SolverData
  collision : Option Collision
  fault : Option String
deriving DecidableEq, Repr

/-- Enumeration limits declared in the headers `admmpd_types.h` and
`DNA_object_force_types.h`; their values are left open. -/
structure Limits where
  LOGLEVEL_NUM : Int
  LINSOLVER_NUM : Int
  ELASTIC_NUM : Int
deriving DecidableEq, Repr

/-- Initialization modes and the object type tag, declared in the headers
`admmpd_api.h` and `DNA_object_types.h`; their values are left open. -/
structure Tags where
  ADMMPD_INIT_MODE_EMBEDDED : Int
  ADMMPD_INIT_MODE_TETGEN : Int
  ADMMPD_INIT_MODE_TRIANGLE : Int
  OB_MESH : Int
deriving DecidableEq, Repr

/-- The collaborators of the boundary code, all defined outside it. -/
structure Env where
  lim : Limits
  tags : Tags
  /-- The function `std::pow(10.f, e)`. -/
  pow10f : Rat → Rat
  /-- The value built by the constructor `admmpd::Options()`. -/
  new_options : Options
  /-- The vertices and triangles that `vecs_from_object` extracts from a mesh
  object through the host library (transform, triangulation). -/
  surface : Object → List (Rat × Rat × Rat) → List Rat × List Nat
  /-- The remesher `tetgen_resmesh`: success flag and the record it filled. -/
  tetgen_resmesh : TetGenRemeshData → Bool × TetGenRemeshData
  /-- The method `Mesh::create (verts, nv, faces, nf, tets, nt)`. -/
  create : Mesh → List Rat → Int → List Nat → Int → Option (List Nat) → Int → CreateResult
  /-- The method `Solver::init (mesh, options, data)`. -/
  solver_init : Option Mesh → Options → SolverData → InitResult
  /-- The method `Solver::solve (mesh, options, data, collision)`. -/
  solver_solve : SolveCall → SolveResult

/-- The threshold `diffeps = 1e-10` of `options_from_object`. -/
def diffeps : Rat := 1 / 10000000000

/-! ## Parameter reconciliation -/

/-- The block of `options_from_object` under the comment "Set options that
don't require a re-initialization": eight unconditional assignments. -/
def set_plain_options (lim : Limits) (sb : SoftBody) (op : Options) : Options :=
  { op with
    max_admm_iters := max 1 sb.admmpd_max_admm_iters
    min_res := max 0 sb.admmpd_converge_eps
    mult_pk := max 0 (min 1 sb.admmpd_goalstiff)
    mult_ck := max 0 (min 1 sb.admmpd_collisionstiff)
    floor := sb.admmpd_floor_z
    self_collision := decide (sb.admmpd_self_collision ≠ 0)
    log_level := max 0 (min (lim.LOGLEVEL_NUM - 1) sb.admmpd_loglevel)
    grav := (0, 0, sb.admmpd_gravity) }

/-- The density test of `options_from_object`, acting on the options and the
flag `reset_solver`. -/
def check_density (sb : SoftBody) (r : Options × Bool) : Options × Bool :=
  if |r.1.density_kgm3 - sb.admmpd_density_kgm3| > diffeps then
    ({ r.1 with density_kgm3 := max 1 sb.admmpd_density_kgm3 }, true)
  else r

/-- The Young's modulus test of `options_from_object`; as in the source, the
new value is assigned to `density_kgm3`. -/
def check_youngs (pow10f : Rat → Rat) (sb : SoftBody) (r : Options × Bool) : Options × Bool :=
  let new_youngs := pow10f (max 0 sb.admmpd_youngs_exp)
  if |r.1.youngs - new_youngs| > diffeps then
    ({ r.1 with density_kgm3 := new_youngs }, true)
  else r

/-- The number denoted by the `float` literal `0.499f`, the upper clamp of
the Poisson ratio: the single-precision value nearest to 0.499, which is
`16743662 / 2^25`, about 0.49900001287, and lies above 0.499. -/
def FLOAT_0_499 : Rat := 8371831 / 16777216

/-- The Poisson ratio test of `options_from_object` (it occurs twice). -/
def check_poisson (sb : SoftBody) (r : Options × Bool) : Options × Bool :=
  if |r.1.poisson - sb.admmpd_poisson| > diffeps then
    ({ r.1 with poisson := max 0 (min FLOAT_0_499 sb.admmpd_poisson) }, true)
  else r

/-- The linear solver test of `options_from_object`. -/
def check_linsolver (lim : Limits) (sb : SoftBody) (r : Options × Bool) : Options × Bool :=
  if r.1.linsolver ≠ sb.admmpd_linsolver then
    ({ r.1 with linsolver := max 0 (min (lim.LINSOLVER_NUM - 1) sb.admmpd_linsolver) }, true)
  else r

/-- The material test of `options_from_object`. -/
def check_material (lim : Limits) (sb : SoftBody) (r : Options × Bool) : Options × Bool :=
  if r.1.elastic_material ≠ sb.admmpd_material then
    ({ r.1 with elastic_material := max 0 (min (lim.ELASTIC_NUM - 1) sb.admmpd_material) }, true)
  else r

/-- The model of `options_from_object`.  The argument `pow10f e` stands for
`std::pow(10.f, e)`.  The result is the options object after the call and the
two output flags `reset_mesh` and `reset_solver`.  The statements of the
source are applied in their order. -/
def options_from_object (lim : Limits) (pow10f : Rat → Rat)
    (ob : Object) (op : Options) : Options × Bool × Bool :=
  match ob.soft with
  | none => (op, false, false)
  | some sb =>
    let r : Options × Bool := (set_plain_options lim sb op, false)
    let r := check_density sb r
    let r := check_youngs pow10f sb r
    let r := check_poisson sb r
    let r := check_poisson sb r
    let r := check_linsolver lim sb r
    let r := check_material lim sb r
    (r.1, false, r.2)

/-! ## Error channel and teardown -/

/-- The size of the buffer `last_error`. -/
def ERROR_SIZE : Nat := 256

/-- The model of `strcpy_error`: the buffer is zeroed, then `str.copy` writes
the first `min (len, size)` characters of the message, where
`len = min (256, size + 1)`, and appends no terminator. -/
def strcpy_error (iface : ADMMPDInterfaceData) (str : String) : ADMMPDInterfaceData :=
  let len := min 256 (str.length + 1)
  let zeroed := List.replicate ERROR_SIZE (Char.ofNat 0)
  let copied := min len str.length
  { iface with last_error := str.data.take copied ++ zeroed.drop copied }

/-- The text a reader of the C string `last_error` sees: the characters
before the first zero. -/
def error_text (iface : ADMMPDInterfaceData) : List Char :=
  iface.last_error.takeWhile (fun c => c ≠ Char.ofNat 0)

/-- The model of `admmpd_dealloc` on a non-null handle. -/
def dealloc (iface : ADMMPDInterfaceData) : ADMMPDInterfaceData :=
  let iface := { iface with out_totverts := 0 }
  let iface := { iface with last_error := List.replicate ERROR_SIZE (Char.ofNat 0) }
  { iface with idata := none }

/-- The model of `admmpd_dealloc`: a null handle is left alone. -/
def admmpd_dealloc (iface : Option ADMMPDInterfaceData) : Option ADMMPDInterfaceData :=
  match iface with
  | none => none
  | some s => some (dealloc s)

/-! ## Geometry construction -/

/-- How a mesh builder ends: it returns a code, or a `std::exception` leaves
it and carries a message. -/
inductive Gen where
  | ret (code : Int)
  | thrown (what : String)
deriving DecidableEq, Repr

/-- The model of `vecs_from_object`: nothing is produced for an object that is
not a mesh. -/
def vecs_from_object (env : Env) (ob : Object) (vertexCos : List (Rat × Rat × Rat)) :
    List Rat × List Nat :=
  if ob.type ≠ env.tags.OB_MESH then ([], []) else env.surface ob vertexCos

/-- The debug loop of `admmpd_init_with_tetgen` over the flat indices
`i*3+j`: `some true` when a coordinate moved by more than `1e-10`, `none` when
the loop reads past the end of an array. -/
def surface_verts_changed (v out_verts : List Rat) : List Nat → Option Bool
  | [] => some false
  | k :: ks =>
    match v.get? k, out_verts.get? k with
    | some a, some b =>
      if |a - b| > diffeps then some true else surface_verts_changed v out_verts ks
    | _, _ => none

/-- The model of `admmpd_init_with_tetgen`. -/
def admmpd_init_with_tetgen (env : Env) (iface : ADMMPDInterfaceData) (ob : Object)
    (vertexCos : List (Rat × Rat × Rat)) : Option (Gen × ADMMPDInterfaceData) :=
  let vf := vecs_from_object env ob vertexCos
  let tg : TetGenRemeshData :=
    { in_verts := vf.1, in_totverts := (vf.1.length / 3 : Nat),
      in_faces := vf.2, in_totfaces := (vf.2.length / 3 : Nat) }
  let r := env.tetgen_resmesh tg
  let success := r.1
  let tg := r.2
  if !success || tg.out_tottets == 0 then
    some (Gen.ret 0, strcpy_error iface "TetGen failed to generate")
  else
    match surface_verts_changed vf.1 tg.out_verts (List.range (tg.in_totverts.toNat * 3)) with
    | none => none
    | some true =>
      some (Gen.ret 0, strcpy_error iface "Bad TetGen assumption: change in surface verts")
    | some false =>
      let iface := { iface with out_totverts := tg.out_totverts }
      match iface.idata with
      | none => none
      | some d =>
        let c := env.create { kind := MeshKind.TetMesh } tg.out_verts tg.out_totverts
          tg.out_facets tg.out_totfacets (some tg.out_tets) tg.out_tottets
        let iface := { iface with idata := some { d with mesh := some c.mesh } }
        match c.outcome with
        | Except.error e => some (Gen.thrown e, iface)
        | Except.ok success =>
          if !success || iface.out_totverts == 0 then
            some (Gen.ret 0, strcpy_error iface "TetMesh failed on creation")
          else some (Gen.ret 1, iface)

/-- The model of `admmpd_init_with_lattice`. -/
def admmpd_init_with_lattice (env : Env) (iface : ADMMPDInterfaceData) (ob : Object)
    (vertexCos : List (Rat × Rat × Rat)) : Option (Gen × ADMMPDInterfaceData) :=
  let vf := vecs_from_object env ob vertexCos
  let iface := { iface with out_totverts := 0 }
  match iface.idata, ob.soft with
  | some d, some sb =>
    let emb_msh : Mesh :=
      { kind := MeshKind.EmbeddedMesh, max_subdiv_levels := sb.admmpd_embed_res }
    let c := env.create emb_msh vf.1 (vf.1.length / 3 : Nat) vf.2 (vf.2.length / 3 : Nat) none 0
    let d := { d with mesh := some c.mesh }
    let iface := { iface with idata := some d }
    match c.outcome with
    | Except.error e => some (Gen.thrown e, iface)
    | Except.ok success =>
      match c.mesh.rest_prim_verts with
      | none => none
      | some m =>
        let iface := { iface with out_totverts := (m.length : Nat) }
        if !success then
          some (Gen.ret 0, strcpy_error iface "EmbeddedMesh failed on creation")
        else
          some (Gen.ret 1, { iface with idata := some { d with collision := some {} } })
  | _, _ => none

/-- The model of `admmpd_init_as_cloth`. -/
def admmpd_init_as_cloth (env : Env) (iface : ADMMPDInterfaceData) (ob : Object)
    (vertexCos : List (Rat × Rat × Rat)) : Option (Gen × ADMMPDInterfaceData) :=
  let vf := vecs_from_object env ob vertexCos
  let iface := { iface with out_totverts := 0 }
  match iface.idata with
  | none => none
  | some d =>
    let c := env.create { kind := MeshKind.TriangleMesh } vf.1 (vf.1.length / 3 : Nat)
      vf.2 (vf.2.length / 3 : Nat) none 0
    let d := { d with mesh := some c.mesh }
    let iface := { iface with idata := some d }
    match c.outcome with
    | Except.error e => some (Gen.thrown e, iface)
    | Except.ok success =>
      match c.mesh.rest_facet_verts with
      | none => none
      | some m =>
        let iface := { iface with out_totverts := (m.length : Nat) }
        if !success then
          some (Gen.ret 0, strcpy_error iface "TriangleMesh failed on creation")
        else
          some (Gen.ret 1, { iface with idata := some { d with collision := none } })

/-- The model of `admmpd_reinit_solver`. -/
def admmpd_reinit_solver (env : Env) (iface : ADMMPDInterfaceData) :
    Option (Int × ADMMPDInterfaceData) :=
  match iface.idata with
  | none => none
  | some d =>
    match d.solver, d.options, d.data with
    | some _, some op, some dat =>
      let r := env.solver_init d.mesh op dat
      let iface := { iface with idata := some { d with data := some r.data } }
      match r.fault with
      | some e => some (0, strcpy_error iface e)
      | none => some (1, iface)
    | _, _, _ => none

/-! ## Session lifecycle -/

/-- The first block of `admmpd_init` once the inputs are known to be non-null:
existing data is deleted, a new internal record is allocated with the clamped
substep count, a solver, default options and default solver data, the
timestep is derived from the clamped frame rate, and the options are
reconciled with the object (the two flags are ignored). -/
def init_internal_data (env : Env) (s : ADMMPDInterfaceData) (ob : Object) (sb : SoftBody) :
    ADMMPDInterfaceData :=
  -- Delete any existing data
  let s := dealloc s
  -- Generate solver data if it doesn't exist
  let fps : Rat := min 1000 (max 1 s.in_framerate)
  let op : Options :=
    { env.new_options with timestep_s := (1 / fps) / ((max 1 sb.admmpd_substeps : Int) : Rat) }
  let op := (options_from_object env.lim env.pow10f ob op).1
  let d : ADMMPDInternalData :=
    { substeps := max 1 sb.admmpd_substeps, solver := some {}, options := some op,
      data := some {} }
  { s with idata := some d }

/-- The `switch (mode)` of `admmpd_init`: the embedded lattice is the default
case. -/
def init_mesh (env : Env) (s : ADMMPDInterfaceData) (ob : Object)
    (vertexCos : List (Rat × Rat × Rat)) (mode : Int) : Option (Gen × ADMMPDInterfaceData) :=
  if mode = env.tags.ADMMPD_INIT_MODE_TETGEN then admmpd_init_with_tetgen env s ob vertexCos
  else if mode = env.tags.ADMMPD_INIT_MODE_TRIANGLE then admmpd_init_as_cloth env s ob vertexCos
  else admmpd_init_with_lattice env s ob vertexCos

/-- The model of `admmpd_init`.  The result is the returned code and the
session record after the call; `none` is a null dereference. -/
def admmpd_init (env : Env) (iface : Option ADMMPDInterfaceData) (ob : Option Object)
    (vertexCos : List (Rat × Rat × Rat)) (mode : Int) : Option (Int × ADMMPDInterfaceData) :=
  match iface, ob with
  | none, _ => none
  | some s, none => some (0, strcpy_error s "NULL input")
  | some s, some ob =>
    match ob.soft with
    | none => some (0, strcpy_error s "NULL SoftBody input")
    | some sb =>
      let s := init_internal_data env s ob sb
      -- Initialize the mesh
      match init_mesh env s ob vertexCos mode with
      | none => none
      | some (Gen.thrown e, s) => some (0, strcpy_error s e)
      | some (Gen.ret gen_success, s) =>
        if gen_success = 0 ∨ s.out_totverts = 0 then some (0, s)
        else
          -- Initialize the solver
          match admmpd_reinit_solver env s with
          | none => none
          | some (ok, s) => if ok = 0 then some (0, s) else some (1, s)

/-! ## Solve driver -/

/-- What the substep loop leaves behind: the solver data and the collision
adapter, the message of the exception that ended the loop (if any), and the
invocations of `Solver::solve` made, oldest first. -/
structure SolveRun where
  data : SolverData
  collision : Option Collision
  fault : Option String
  calls : List SolveCall
deriving DecidableEq, Repr

/-- The loop `for (i = 0; i < substeps; ++i) solver->solve (...)` with `n`
iterations left; an exception ends it. -/
def solve_substeps (env : Env) (mesh : Option Mesh) (op : Options) :
    Nat → SolverData → Option Collision → List SolveCall → SolveRun
  | 0, dat, col, calls => { data := dat, collision := col, fault := none, calls := calls }
  | n + 1, dat, col, calls =>
    let call : SolveCall := { mesh := mesh, options := op, data := dat, collision := col }
    let r := env.solver_solve call
    match r.fault with
    | some e => { data := r.data, collision := r.collision, fault := some e, calls := calls ++ [call] }
    | none => solve_substeps env mesh op n r.data r.collision (calls ++ [call])

/-- The model of `admmpd_solve`.  The result is the returned code, the session
record after the call and the invocations of `Solver::solve` it made; `none`
is a null dereference. -/
def admmpd_solve (env : Env) (iface : Option ADMMPDInterfaceData) (ob : Option Object) :
    Option (Int × ADMMPDInterfaceData × List SolveCall) :=
  match iface with
  | none => none
  | some s =>
    if ob = none ∨ (ob.bind (fun o => o.soft)) = none then
      some (0, strcpy_error s "NULL input", [])
    else
      match s.idata with
      | none => some (0, strcpy_error s "NULL internal data", [])
      | some d =>
        match d.options, d.data, d.solver with
        | some op, some dat, some _ =>
          let substeps : Int := max 1 d.substeps
          let run := solve_substeps env d.mesh op substeps.toNat dat d.collision []
          let d := { d with data := some run.data, collision := run.collision }
          match run.fault with
          | some e =>
            let d := { d with data := some { run.data with x := run.data.x_start } }
            some (0, strcpy_error { s with idata := some d } e, run.calls)
          | none => some (1, { s with idata := some d }, run.calls)
        | _, _, _ => some (0, strcpy_error s "NULL internal data", [])

/-- One advance of the solver as a function on the pair it updates, the
solver data and the collision adapter, for a fixed mesh and fixed options. -/
def substep (env : Env) (mesh : Option Mesh) (op : Options)
    (st : SolverData × Option Collision) : SolverData × Option Collision :=
  ((env.solver_solve { mesh := mesh, options := op, data := st.1, collision := st.2 }).data,
   (env.solver_solve { mesh := mesh, options := op, data := st.1, collision := st.2 }).collision)

/-- The session has internal data with options, solver data and a solver
attached: the condition under which `admmpd_solve` goes on to the solver. -/
def attached (s : ADMMPDInterfaceData) : Prop :=
  (s.idata.bind (fun d => d.options)).isSome = true ∧
  (s.idata.bind (fun d => d.data)).isSome = true ∧
  (s.idata.bind (fun d => d.solver)).isSome = true

/-- The error buffer with every byte zero. -/
def no_error : List Char := List.replicate ERROR_SIZE (Char.ofNat 0)

/-! ## Collision and constraint update -/

/-- Modelled from the spec: the method `Collision::set_obstacles` (defined in
`admmpd_collision.cpp`, absent here).  It replaces the transient obstacle
snapshot of the adapter by the two vertex samples and the faces supplied. -/
def set_obstacles (c : Collision) (v0 v1 : List Rat) (nv : Int) (faces : List Nat) (nf : Int) :
    Collision :=
  { c with obstacles := some { verts_0 := v0, verts_1 := v1, nv := nv, faces := faces, nf := nf } }

/-- The model of `admmpd_update_obstacles`.  The result is the session handle
after the call. -/
def admmpd_update_obstacles (iface : Option ADMMPDInterfaceData)
    (in_verts_0 in_verts_1 : Option (List Rat)) (nv : Int) (in_faces : Option (List Nat))
    (nf : Int) : Option ADMMPDInterfaceData :=
  match iface, in_verts_0, in_verts_1, in_faces with
  | some s, some v0, some v1, some f =>
    match s.idata with
    | none => some s
    | some d =>
      match d.collision with
      | none => some s
      | some c =>
        some { s with idata := some { d with collision := some (set_obstacles c v0 v1 nv f nf) } }
  | _, _, _, _ => iface

/-- Modelled from the spec: the method `Mesh::set_pin (idx, pos, k)` (defined
in `admmpd_mesh.cpp`, absent here).  The pin of vertex `idx` is overwritten by
the target position and the stiffness, whatever the stiffness is; a vertex
without a pin gets one; the pins of other vertices are left alone. -/
def set_pin (m : Mesh) (idx : Int) (pos : Rat × Rat × Rat) (k : Rat) : Mesh :=
  if m.pins.any (fun e => decide (e.1 = idx)) then
    { m with pins := m.pins.map (fun e => if e.1 = idx then (idx, pos, k) else e) }
  else
    { m with pins := m.pins ++ [(idx, pos, k)] }

/-- The pin stored for vertex `idx`: its target position and stiffness. -/
def pin_of (m : Mesh) (idx : Int) : Option ((Rat × Rat × Rat) × Rat) :=
  (m.pins.find? (fun e => decide (e.1 = idx))).map (fun e => e.2)

/-- The arguments of the call of `set_pin` for vertex `i`: the index, the
vector `qi` read from `goal_pos` and the stiffness `goal_k[i]`. -/
def goal_entry (goal_k goal_pos : List Rat) (i : Nat) : Int × (Rat × Rat × Rat) × Rat :=
  ((i : Int), (goal_pos.getD (i * 3 + 0) 0, goal_pos.getD (i * 3 + 1) 0, goal_pos.getD (i * 3 + 2) 0),
    goal_k.getD i 0)

/-- The loop of `admmpd_update_goals` over the vertex indices still to do;
`none` when an array is read past its end. -/
def update_goals_loop (goal_k goal_pos : List Rat) : List Nat → Mesh → Option Mesh
  | [], m => some m
  | i :: rest, m =>
    match goal_pos.get? (i * 3 + 0), goal_pos.get? (i * 3 + 1), goal_pos.get? (i * 3 + 2),
        goal_k.get? i with
    | some a, some b, some c, some k =>
      update_goals_loop goal_k goal_pos rest (set_pin m (i : Int) (a, b, c) k)
    | _, _, _, _ => none

/-- The model of `admmpd_update_goals`.  The result is the session handle
after the call; `none` is a read past the end of an array. -/
def admmpd_update_goals (iface : Option ADMMPDInterfaceData) (goal_k goal_pos : Option (List Rat))
    (nv : Int) : Option (Option ADMMPDInterfaceData) :=
  match iface, goal_k, goal_pos with
  | some s, some gk, some gp =>
    match s.idata with
    | none => some (some s)
    | some d =>
      match d.mesh with
      | none => some (some s)
      | some m =>
        match update_goals_loop gk gp (List.range nv.toNat) m with
        | none => none
        | some m' => some (some { s with idata := some { d with mesh := some m' } })
  | _, _, _ => some iface

/-- The calls of `set_pin` that `admmpd_update_goals` makes for the listed
vertices, one call per vertex, in the order of the list. -/
def set_pins (goal_k goal_pos : List Rat) (todo : List Nat) (m : Mesh) : Mesh :=
  todo.foldl (fun m i => set_pin m (goal_entry goal_k goal_pos i).1
    (goal_entry goal_k goal_pos i).2.1 (goal_entry goal_k goal_pos i).2.2) m

/-- The vertex has a pin and every pin entry of the vertex equals `e`. -/
def pinned (m : Mesh) (e : Int × (Rat × Rat × Rat) × Rat) : Prop :=
  (∃ x ∈ m.pins, x.1 = e.1) ∧ ∀ x ∈ m.pins, x.1 = e.1 → x = e

/-! ## State marshalling -/

/-- The host point (`BodyPoint`): position, velocity, and a handle standing
for the fields this file never touches. -/
structure BodyPoint where
  pos : Rat × Rat × Rat
  vec : Rat × Rat × Rat
  other : Nat := 0
deriving DecidableEq, Repr

/-- The three reads `m(i,0)`, `m(i,1)`, `m(i,2)`; `none` when row `i` or one
of the three columns does not exist. -/
def mat_row3 (m : Mat) (i : Nat) : Option (Rat × Rat × Rat) :=
  match m.get? i with
  | some (a :: b :: c :: _) => some (a, b, c)
  | _ => none

/-- The three assignments `m(i,j) = p[j]` for `j = 0, 1, 2`; `none` when row
`i` or one of the three columns does not exist. -/
def mat_set_row3 (m : Mat) (i : Nat) (p : Rat × Rat × Rat) : Option Mat :=
  match m.get? i with
  | some (_ :: _ :: _ :: rest) => some (m.set i (p.1 :: p.2.1 :: p.2.2 :: rest))
  | _ => none

/-- Row `i` of the matrix exists and has at least three columns. -/
def has_row3 (m : Mat) (i : Nat) : Prop :=
  ∃ a b c rest, m.get? i = some (a :: b :: c :: rest)

/-- One iteration of the loop of `admmpd_copy_from_bodypoint`: point `i` is
read and its position and velocity are written to row `i` of `x` and `v`. -/
def copy_from_point (pts : List BodyPoint) (s : ADMMPDInterfaceData) (i : Nat) :
    Option ADMMPDInterfaceData :=
  match pts.get? i, s.idata with
  | some pt, some d =>
    match d.data with
    | some dat =>
      match mat_set_row3 dat.x i pt.pos, mat_set_row3 dat.v i pt.vec with
      | some x, some v => some { s with idata := some { d with data := some { dat with x := x, v := v } } }
      | _, _ => none
    | none => none
  | _, _ => none

/-- The loop of `admmpd_copy_from_bodypoint` over the indices still to do. -/
def copy_from_loop (pts : List BodyPoint) : List Nat → ADMMPDInterfaceData →
    Option ADMMPDInterfaceData
  | [], s => some s
  | i :: rest, s =>
    match copy_from_point pts s i with
    | none => none
    | some s' => copy_from_loop pts rest s'

/-- The model of `admmpd_copy_from_bodypoint`.  The result is the session
handle after the call; `none` is a null dereference or an access outside an
array. -/
def admmpd_copy_from_bodypoint (iface : Option ADMMPDInterfaceData)
    (pts : Option (List BodyPoint)) : Option (Option ADMMPDInterfaceData) :=
  match iface, pts with
  | some s, some p => (copy_from_loop p (List.range s.out_totverts.toNat) s).map some
  | _, _ => some iface

/-- One iteration of the first loop of `admmpd_copy_to_bodypoint_and_object`
for a non-null array: row `i` of `x` and `v` is read and written to the
position and velocity of point `i`. -/
def copy_to_point (s : ADMMPDInterfaceData) (pts : List BodyPoint) (i : Nat) :
    Option (List BodyPoint) :=
  match pts.get? i, s.idata with
  | some pt, some d =>
    match d.data with
    | some dat =>
      match mat_row3 dat.x i, mat_row3 dat.v i with
      | some p, some v => some (pts.set i { pt with pos := p, vec := v })
      | _, _ => none
    | none => none
  | _, _ => none

/-- The first loop of `admmpd_copy_to_bodypoint_and_object` over the indices
still to do; with a null array an iteration does nothing. -/
def copy_to_points (s : ADMMPDInterfaceData) : List Nat → Option (List BodyPoint) →
    Option (Option (List BodyPoint))
  | [], pts => some pts
  | _ :: rest, none => copy_to_points s rest none
  | i :: rest, some p =>
    match copy_to_point s p i with
    | none => none
    | some p' => copy_to_points s rest (some p')

/-- The second loop of `admmpd_copy_to_bodypoint_and_object` over the facet
vertices still to do: vertex `i` of the buffer receives the mapped facet
vertex.  The argument `mapped` stands for `Mesh::get_mapped_facet_vertex`. -/
def copy_to_verts (mapped : Mesh → Mat → Nat → Rat × Rat × Rat) (m : Mesh)
    (dat : Option SolverData) : List Nat → List (Rat × Rat × Rat) →
    Option (List (Rat × Rat × Rat))
  | [], vc => some vc
  | i :: rest, vc =>
    match dat with
    | none => none
    | some d =>
      if i < vc.length then copy_to_verts mapped m dat rest (vc.set i (mapped m d.x i))
      else none

/-- The model of `admmpd_copy_to_bodypoint_and_object`.  The session is only
read; the result is the two host arrays after the call, and `none` is a null
dereference or an access outside an array. -/
def admmpd_copy_to_bodypoint_and_object (mapped : Mesh → Mat → Nat → Rat × Rat × Rat)
    (iface : Option ADMMPDInterfaceData) (pts : Option (List BodyPoint))
    (vertexCos : Option (List (Rat × Rat × Rat))) :
    Option (Option (List BodyPoint) × Option (List (Rat × Rat × Rat))) :=
  match iface with
  | none => some (pts, vertexCos)
  | some s =>
    -- Map the deforming vertices to BodyPoint
    match copy_to_points s (List.range s.out_totverts.toNat) pts with
    | none => none
    | some pts' =>
      -- Map the facet vertices
      match s.idata with
      | none => none
      | some d =>
        match d.mesh with
        | none => none
        | some m =>
          match vertexCos, m.rest_facet_verts with
          | some vc, some rfv =>
            (copy_to_verts mapped m d.data (List.range rfv.length) vc).map
              (fun vc' => (pts', some vc'))
          | _, _ => some (pts', vertexCos)

/-! ## Concrete data used by the examples -/

/-- A stand-in for `std::pow(10.f, e)` in the examples: exact at every
exponent that is a natural number. -/
def pow10_floor (e : Rat) : Rat := 10 ^ (Int.toNat (Int.floor e))

/-- Enumeration limits used by the examples. -/
def demo_limits : Limits := { LOGLEVEL_NUM := 4, LINSOLVER_NUM := 3, ELASTIC_NUM := 2 }

/-- Host tunables with every value inside its valid range. -/
def demo_softbody : SoftBody :=
  { admmpd_max_admm_iters := 20, admmpd_converge_eps := 1 / 1000, admmpd_goalstiff := 1 / 2,
    admmpd_collisionstiff := 1, admmpd_floor_z := -1000, admmpd_self_collision := 0,
    admmpd_loglevel := 1, admmpd_gravity := -981 / 100, admmpd_density_kgm3 := 1522,
    admmpd_youngs_exp := 6, admmpd_poisson := 399 / 1000, admmpd_linsolver := 0,
    admmpd_material := 0, admmpd_substeps := 2, admmpd_embed_res := 3 }

/-- Options that agree with `demo_softbody` on every tunable. -/
def demo_options : Options :=
  { timestep_s := 1 / 48, max_admm_iters := 20, min_res := 1 / 1000, mult_pk := 1 / 2,
    mult_ck := 1, floor := -1000, self_collision := false, log_level := 1,
    grav := (0, 0, -981 / 100), density_kgm3 := 1522, youngs := 1000000,
    poisson := 399 / 1000, linsolver := 0, elastic_material := 0 }

/-- A mesh object carrying the given soft-body settings. -/
def demo_object (sb : SoftBody) : Object := { type := 1, soft := some sb, geom := 0 }

/-- Mode and type tags used by the examples. -/
def demo_tags : Tags :=
  { ADMMPD_INIT_MODE_EMBEDDED := 0, ADMMPD_INIT_MODE_TETGEN := 1,
    ADMMPD_INIT_MODE_TRIANGLE := 2, OB_MESH := 1 }

/-- A solver advance that records the incoming positions in `x_start`, moves
the positions `[[0,0,0]]` to `[[1,0,0]]`, and faults on any other positions
after having overwritten them. -/
def snapshot_solve (c : SolveCall) : SolveResult :=
  if c.data.x = [[0, 0, 0]] then
    { data := { c.data with x_start := c.data.x, x := [[1, 0, 0]] }, collision := c.collision,
      fault := none }
  else
    { data := { c.data with x_start := c.data.x, x := [[9, 9, 9]] }, collision := c.collision,
      fault := some "diverged" }

/-- A solver advance that never faults: it records the incoming positions in
`x_start` and appends a row to the positions. -/
def steady_solve (c : SolveCall) : SolveResult :=
  { data := { c.data with x_start := c.data.x, x := c.data.x ++ [[0, 0, 0]] },
    collision := c.collision, fault := none }

/-- Collaborators for the examples: the given solver advance, a mesh
constructor that fills three rest vertices and reports `created`, a solver
constructor that does not fault, and a remesher that reports failure. -/
def demo_env (solve : SolveCall → SolveResult) (created : Bool) : Env :=
  { lim := demo_limits
    tags := demo_tags
    pow10f := pow10_floor
    new_options := demo_options
    surface := fun _ _ => ([0, 0, 0, 1, 0, 0, 0, 1, 0], [0, 1, 2])
    tetgen_resmesh := fun tg => (false, tg)
    create := fun m _ _ _ _ _ _ =>
      { mesh := { m with rest_prim_verts := some [[0, 0, 0], [1, 0, 0], [0, 1, 0]],
                         rest_facet_verts := some [[0, 0, 0], [1, 0, 0], [0, 1, 0]] },
        outcome := Except.ok created }
    solver_init := fun _ _ dat => { data := dat, fault := none }
    solver_solve := solve }

/-- Solver data whose positions are `[[0,0,0]]` and whose snapshot is stale. -/
def demo_data : SolverData := { x := [[0, 0, 0]], v := [[0, 0, 0]], x_start := [[5, 5, 5]] }

/-- A ready session with two substeps, three output vertices and a message
left in the error buffer by an earlier call. -/
def demo_session : ADMMPDInterfaceData :=
  { out_totverts := 3, mesh_totverts := 3, mesh_totfaces := 1, in_framerate := 24,
    last_error := "old".data ++ List.replicate 253 (Char.ofNat 0),
    idata := some { collision := none, mesh := some { kind := MeshKind.TriangleMesh },
                    options := some demo_options, data := some demo_data, solver := some {},
                    substeps := 2 } }

/-- Collaborators whose mesh constructor reports success on a surface without
vertices: the rest vertex arrays exist and have no rows. -/
def empty_mesh_env : Env :=
  { demo_env steady_solve true with
    create := fun m _ _ _ _ _ _ =>
      { mesh := { m with rest_prim_verts := some [], rest_facet_verts := some [] },
        outcome := Except.ok true } }

/-- A message of 256 characters, as an exception of the solver may carry. -/
def long_message : String := String.mk (List.replicate 256 'e')

/-- A ready session in embedded mode: as `demo_session`, with a collision
adapter that holds an obstacle snapshot from an earlier frame. -/
def demo_collision_session : ADMMPDInterfaceData :=
  { demo_session with
    idata := some
      ({ collision := some { obstacles := some { verts_0 := [0], verts_1 := [1], nv := 0,
                                                 faces := [], nf := 0 } },
         mesh := some { kind := MeshKind.EmbeddedMesh },
         options := some demo_options, data := some demo_data, solver := some {},
         substeps := 2 } : ADMMPDInternalData) }

/-- A mesh that already pins vertex 1 with stiffness 3 and vertex 7 with
stiffness 4. -/
def demo_pinned_mesh : Mesh :=
  { kind := MeshKind.TriangleMesh, pins := [(1, (5, 5, 5), 3), (7, (2, 2, 2), 4)] }

/-- A ready session around `demo_pinned_mesh`. -/
def demo_pinned_session : ADMMPDInterfaceData :=
  { demo_session with
    idata := some
      ({ collision := none, mesh := some demo_pinned_mesh, options := some demo_options,
         data := some demo_data, solver := some {}, substeps := 2 } : ADMMPDInternalData) }

/-- Collaborators for the remesher examples: the surface is the single vertex
(0, 0, 0), and the remesher reports success with one tetrahedron and the given
output vertices. -/
def tetgen_env (out_verts : List Rat) : Env :=
  { demo_env steady_solve true with
    surface := fun _ _ => ([0, 0, 0], [])
    tetgen_resmesh := fun tg =>
      (true, { tg with out_verts := out_verts, out_totverts := 4, out_tottets := 1 }) }

/-- A ready session with three output vertices whose position and velocity
matrices have three rows of three columns. -/
def demo_marshal_session : ADMMPDInterfaceData :=
  { demo_session with
    idata := some
      ({ collision := none, mesh := some { kind := MeshKind.TriangleMesh },
         options := some demo_options,
         data := some { x := [[0, 0, 0], [0, 0, 0], [0, 0, 0]],
                        v := [[0, 0, 0], [0, 0, 0], [0, 0, 0]] },
         solver := some {}, substeps := 2 } : ADMMPDInternalData) }

/-- Four host points; the session above covers the first three. -/
def demo_points : List BodyPoint :=
  [{ pos := (1, 2, 3), vec := (0, 0, 1) }, { pos := (4, 5, 6), vec := (0, 1, 0) },
   { pos := (7, 8, 9), vec := (1, 0, 0) }, { pos := (1, 1, 1), vec := (2, 2, 2) }]

/-- Collaborators for the remesher examples: the surface is the single vertex
(0, 0, 0), and the remesher reports success but returns no tetrahedron; the
output vertex it returns is moved to (0, 0, 1/2). -/
def tetgen_no_tets_env : Env :=
  { demo_env steady_solve true with
    surface := fun _ _ => ([0, 0, 0], [])
    tetgen_resmesh := fun tg =>
      (true, { tg with out_verts := [0, 0, 1 / 2], out_totverts := 1, out_tottets := 0 }) }

end Admmpd

/-!
# Wavefront OBJ reader (`io/wavefront_obj/intern/wavefront_obj_im_file_reader.cc`)

The line splitter and the integer conversion of the OBJ importer.  A
`string_view` is a list of characters; the position `npos` is `none`.
-/

namespace WavefrontObj

/-- The space character. -/
def SPACE : Char := Char.ofNat 32

/-- The carriage return character. -/
def CR : Char := Char.ofNat 13

/-- The first position at or after `i` whose character satisfies `p`, counted
from the start of the view; `none` is `npos`. -/
def find_from (p : Char → Bool) : List Char → Nat → Option Nat
  | [], _ => none
  | c :: cs, i => if p c then some i else find_from p cs (i + 1)

/-- The library function `string_view::find_first_of (c)`. -/
def find_first_of (s : List Char) (c : Char) : Option Nat :=
  find_from (fun x => decide (x = c)) s 0

/-- The library function `string_view::find_first_not_of (c)`. -/
def find_first_not_of (s : List Char) (c : Char) : Option Nat :=
  find_from (fun x => decide (x ≠ c)) s 0

/-- The library function `string_view::find_last_not_of (c)`: the last
position whose character differs from `c`. -/
def find_last_not_of (s : List Char) (c : Char) : Option Nat :=
  match find_from (fun x => decide (x ≠ c)) s.reverse 0 with
  | none => none
  | some k => some (s.length - 1 - k)

/-- The library function `string_view::substr (pos, count)` for `pos` within
the view; a count of `none` is `npos`, the rest of the view. -/
def substr (s : List Char) (pos : Nat) (count : Option Nat) : List Char :=
  match count with
  | none => s.drop pos
  | some n => (s.drop pos).take n

/-- The model of `split_line_key_rest`.  The last two arguments are the
values the two output views hold before the call, the result is the pair they
hold after it.  In `pos + 1` the unsigned `npos` wraps around to 0. -/
def split_line_key_rest (line r_line_key r_rest_line : List Char) : List Char × List Char :=
  if line = [] then (r_line_key, r_rest_line)
  else
    let pos := find_first_of line SPACE
    let r_line_key :=
      match pos with
      | none => substr line 0 (some 1)
      | some p => substr line 0 (some p)
    let r_rest_line :=
      match pos with
      | none => substr line 0 none
      | some p => substr line (p + 1) none
    if r_rest_line = [] then (r_line_key, r_rest_line)
    else
      -- Remove any leading spaces, trailing spaces & \r character, if any.
      let r_rest_line :=
        match find_first_not_of r_rest_line SPACE with
        | some leading_space => substr r_rest_line leading_space none
        | none => r_rest_line
      let r_rest_line :=
        match find_first_of r_rest_line CR with
        | some carriage_return => substr r_rest_line 0 (some carriage_return)
        | none => r_rest_line
      let r_rest_line :=
        match find_last_not_of r_rest_line SPACE with
        | some trailing_space => substr r_rest_line 0 (some (trailing_space + 1))
        | none => r_rest_line
      (r_line_key, r_rest_line)

/-- How a call of the library function `std::stoi` ends: with a value, or
with one of its two exceptions. -/
inductive Stoi where
  | value (n : Int)
  | invalid_argument
  | out_of_range
deriving DecidableEq, Repr

/-- The characters `isspace` accepts in the C locale. -/
def is_space (c : Char) : Bool :=
  decide (c = Char.ofNat 32) || decide (c = Char.ofNat 9) || decide (c = Char.ofNat 10) ||
  decide (c = Char.ofNat 11) || decide (c = Char.ofNat 12) || decide (c = Char.ofNat 13)

/-- The number written by a list of decimal digits. -/
def digits_value (ds : List Char) : Nat :=
  ds.foldl (fun (a : Nat) (c : Char) => 10 * a + (c.toNat - 48)) 0

/-- The library function `std::stoi` in base 10 with a 32-bit `int`: leading
white space is skipped, an optional sign and the longest run of digits are
read, and what follows is ignored; no digit gives `invalid_argument`, a value
outside the range of `int` gives `out_of_range`. -/
def stoi (src : List Char) : Stoi :=
  let s := src.dropWhile is_space
  let negative := decide (s.head? = some (Char.ofNat 45))
  let s :=
    if s.head? = some (Char.ofNat 45) ∨ s.head? = some (Char.ofNat 43) then s.drop 1 else s
  let ds := s.takeWhile Char.isDigit
  if ds = [] then Stoi.invalid_argument
  else
    let v : Int := if negative then -(digits_value ds : Int) else (digits_value ds : Int)
    if v < -2147483648 ∨ 2147483647 < v then Stoi.out_of_range else Stoi.value v

/-- The model of `copy_string_to_int` for one string.  The last argument is
the value of the destination before the call, the result its value after it.
As in the source, the handler of `std::out_of_range` only prints. -/
def copy_string_to_int (src : List Char) (fallback_value : Int) (r_dst : Int) : Int :=
  match stoi src with
  | Stoi.value n => n
  | Stoi.invalid_argument => fallback_value
  | Stoi.out_of_range => r_dst

/-- The model of `copy_string_to_int` for a span of strings: one conversion
per element of the destination; `none` when the source span is shorter than
the destination, which the assertion of the source excludes. -/
def copy_string_to_int_span (src : List (List Char)) (fallback_value : Int) (r_dst : List Int) :
    Option (List Int) :=
  if src.length < r_dst.length then none
  else some (List.zipWith (fun s d => copy_string_to_int s fallback_value d) src r_dst)

end WavefrontObj

namespace Admmpd

/-! ## Reconciliation: stage lemmas -/

theorem check_density_eq (sb : SoftBody) (r : Options × Bool) :
    check_density sb r =
      ({ r.1 with density_kgm3 :=
          if |r.1.density_kgm3 - sb.admmpd_density_kgm3| > diffeps then max 1 sb.admmpd_density_kgm3
          else r.1.density_kgm3 },
        r.2 || decide (|r.1.density_kgm3 - sb.admmpd_density_kgm3| > diffeps)) := by
  unfold check_density
  split_ifs with h <;> simp [h]

theorem check_youngs_eq (p : Rat → Rat) (sb : SoftBody) (r : Options × Bool) :
    check_youngs p sb r =
      ({ r.1 with density_kgm3 :=
          if |r.1.youngs - p (max 0 sb.admmpd_youngs_exp)| > diffeps then p (max 0 sb.admmpd_youngs_exp)
          else r.1.density_kgm3 },
        r.2 || decide (|r.1.youngs - p (max 0 sb.admmpd_youngs_exp)| > diffeps)) := by
  unfold check_youngs
  simp only
  split_ifs with h <;> simp [h]

theorem check_poisson_eq (sb : SoftBody) (r : Options × Bool) :
    check_poisson sb r =
      ({ r.1 with poisson :=
          if |r.1.poisson - sb.admmpd_poisson| > diffeps then max 0 (min FLOAT_0_499 sb.admmpd_poisson)
          else r.1.poisson },
        r.2 || decide (|r.1.poisson - sb.admmpd_poisson| > diffeps)) := by
  unfold check_poisson
  split_ifs with h <;> simp [h]

theorem check_linsolver_eq (lim : Limits) (sb : SoftBody) (r : Options × Bool) :
    check_linsolver lim sb r =
      ({ r.1 with linsolver :=
          if r.1.linsolver ≠ sb.admmpd_linsolver then max 0 (min (lim.LINSOLVER_NUM - 1) sb.admmpd_linsolver)
          else r.1.linsolver },
        r.2 || decide (r.1.linsolver ≠ sb.admmpd_linsolver)) := by
  unfold check_linsolver
  split_ifs with h <;> simp [h]

theorem check_material_eq (lim : Limits) (sb : SoftBody) (r : Options × Bool) :
    check_material lim sb r =
      ({ r.1 with elastic_material :=
          if r.1.elastic_material ≠ sb.admmpd_material then max 0 (min (lim.ELASTIC_NUM - 1) sb.admmpd_material)
          else r.1.elastic_material },
        r.2 || decide (r.1.elastic_material ≠ sb.admmpd_material)) := by
  unfold check_material
  split_ifs with h <;> simp [h]

theorem ofo_some (lim : Limits) (p : Rat → Rat) (ob : Object) (sb : SoftBody) (o : Options)
    (hsb : ob.soft = some sb) :
    options_from_object lim p ob o =
      ((check_material lim sb (check_linsolver lim sb (check_poisson sb (check_poisson sb
        (check_youngs p sb (check_density sb (set_plain_options lim sb o, false))))))).1, false,
       (check_material lim sb (check_linsolver lim sb (check_poisson sb (check_poisson sb
        (check_youngs p sb (check_density sb (set_plain_options lim sb o, false))))))).2) := by
  unfold options_from_object
  rw [hsb]

theorem ofo_youngs (lim : Limits) (p : Rat → Rat) (ob : Object) (o : Options) :
    (options_from_object lim p ob o).1.youngs = o.youngs := by
  cases hsb : ob.soft with
  | none => simp [options_from_object, hsb]
  | some sb =>
    rw [ofo_some lim p ob sb o hsb]
    simp [check_material_eq, check_linsolver_eq, check_poisson_eq, check_youngs_eq,
      check_density_eq, set_plain_options]

theorem ofo_density (lim : Limits) (p : Rat → Rat) (ob : Object) (sb : SoftBody) (o : Options)
    (hsb : ob.soft = some sb) :
    (options_from_object lim p ob o).1.density_kgm3 =
      if |o.youngs - p (max 0 sb.admmpd_youngs_exp)| > diffeps then p (max 0 sb.admmpd_youngs_exp)
      else if |o.density_kgm3 - sb.admmpd_density_kgm3| > diffeps then max 1 sb.admmpd_density_kgm3
      else o.density_kgm3 := by
  rw [ofo_some lim p ob sb o hsb]
  simp [check_material_eq, check_linsolver_eq, check_poisson_eq, check_youngs_eq,
      check_density_eq, set_plain_options]

theorem ofo_poisson (lim : Limits) (p : Rat → Rat) (ob : Object) (sb : SoftBody) (o : Options)
    (hsb : ob.soft = some sb) :
    (options_from_object lim p ob o).1.poisson =
      if |o.poisson - sb.admmpd_poisson| > diffeps then max 0 (min FLOAT_0_499 sb.admmpd_poisson)
      else o.poisson := by
  rw [ofo_some lim p ob sb o hsb]
  simp only [check_material_eq, check_linsolver_eq, check_poisson_eq, check_youngs_eq,
      check_density_eq, set_plain_options]
  split_ifs <;> rfl

theorem ofo_linsolver (lim : Limits) (p : Rat → Rat) (ob : Object) (sb : SoftBody) (o : Options)
    (hsb : ob.soft = some sb) :
    (options_from_object lim p ob o).1.linsolver =
      if o.linsolver ≠ sb.admmpd_linsolver then max 0 (min (lim.LINSOLVER_NUM - 1) sb.admmpd_linsolver)
      else o.linsolver := by
  rw [ofo_some lim p ob sb o hsb]
  simp [check_material_eq, check_linsolver_eq, check_poisson_eq, check_youngs_eq,
      check_density_eq, set_plain_options]

theorem ofo_material (lim : Limits) (p : Rat → Rat) (ob : Object) (sb : SoftBody) (o : Options)
    (hsb : ob.soft = some sb) :
    (options_from_object lim p ob o).1.elastic_material =
      if o.elastic_material ≠ sb.admmpd_material then max 0 (min (lim.ELASTIC_NUM - 1) sb.admmpd_material)
      else o.elastic_material := by
  rw [ofo_some lim p ob sb o hsb]
  simp [check_material_eq, check_linsolver_eq, check_poisson_eq, check_youngs_eq,
      check_density_eq, set_plain_options]

theorem ofo_reset (lim : Limits) (p : Rat → Rat) (ob : Object) (sb : SoftBody) (o : Options)
    (hsb : ob.soft = some sb) :
    (options_from_object lim p ob o).2.2 = true ↔
      (|o.density_kgm3 - sb.admmpd_density_kgm3| > diffeps ∨
       |o.youngs - p (max 0 sb.admmpd_youngs_exp)| > diffeps ∨
       |o.poisson - sb.admmpd_poisson| > diffeps ∨
       o.linsolver ≠ sb.admmpd_linsolver ∨
       o.elastic_material ≠ sb.admmpd_material) := by
  rw [ofo_some lim p ob sb o hsb]
  simp only [check_material_eq, check_linsolver_eq, check_poisson_eq, check_youngs_eq,
      check_density_eq, set_plain_options]
  by_cases hp : |o.poisson - sb.admmpd_poisson| > diffeps
  · simp [hp]
  · simp [hp]
    tauto


/-! ## Reconciliation: the claims -/

/-- C4, counterexample.  Reconciling twice with the same host tunables, whose
density 1/2 is below the clamp, reports `reset_solver` on the second call:
the stored value is the clamped 1 and the test compares it with the raw 1/2. -/
theorem C4_counterexample :
    (options_from_object demo_limits pow10_floor
      (demo_object { demo_softbody with admmpd_density_kgm3 := 1 / 2 })
      (options_from_object demo_limits pow10_floor
        (demo_object { demo_softbody with admmpd_density_kgm3 := 1 / 2 }) demo_options).1).2.2
      = true := by
  rw [ofo_reset _ _ _ _ _ rfl]
  left
  rw [ofo_density _ _ _ _ _ rfl]
  norm_num [demo_object, demo_softbody, demo_options, pow10_floor, diffeps, lt_abs, Int.toNat]

/-- C4, amended.  Let the structural tunables of `t` lie in their valid ranges
and let the Young's modulus stored in `o0` already agree with the exponent of
`t`.  If `t'` agrees with `t` on every structural tunable, then reconciling
with `t` and then with `t'` reports `reset_solver = false`, whatever the other
tunables of `t'` are. -/
theorem C4_plain_change_keeps_solver (lim : Limits) (p : Rat → Rat) (ob ob' : Object)
    (t t' : SoftBody) (o0 : Options)
    (ht : ob.soft = some t) (ht' : ob'.soft = some t')
    (hd : t'.admmpd_density_kgm3 = t.admmpd_density_kgm3)
    (hy : t'.admmpd_youngs_exp = t.admmpd_youngs_exp)
    (hp : t'.admmpd_poisson = t.admmpd_poisson)
    (hl : t'.admmpd_linsolver = t.admmpd_linsolver)
    (hm : t'.admmpd_material = t.admmpd_material)
    (hrd : 1 ≤ t.admmpd_density_kgm3)
    (hrp : 0 ≤ t.admmpd_poisson ∧ t.admmpd_poisson ≤ 499 / 1000)
    (hrl : 0 ≤ t.admmpd_linsolver ∧ t.admmpd_linsolver ≤ lim.LINSOLVER_NUM - 1)
    (hrm : 0 ≤ t.admmpd_material ∧ t.admmpd_material ≤ lim.ELASTIC_NUM - 1)
    (hyo : |o0.youngs - p (max 0 t.admmpd_youngs_exp)| ≤ diffeps) :
    (options_from_object lim p ob' (options_from_object lim p ob o0).1).2.2 = false := by
  have hpos : (0 : Rat) ≤ diffeps := by norm_num [diffeps]
  rw [Bool.eq_false_iff]
  intro h
  rw [ofo_reset lim p ob' t' _ ht', ofo_youngs, ofo_density lim p ob t o0 ht,
    ofo_poisson lim p ob t o0 ht, ofo_linsolver lim p ob t o0 ht,
    ofo_material lim p ob t o0 ht, hd, hy, hp, hl, hm] at h
  have hyo' : ¬ |o0.youngs - p (max 0 t.admmpd_youngs_exp)| > diffeps := not_lt.mpr hyo
  rw [if_neg hyo'] at h
  rcases h with h | h | h | h | h
  · split_ifs at h with h1
    · rw [max_eq_right hrd, sub_self, abs_zero] at h
      exact absurd h (not_lt.mpr hpos)
    · exact h1 h
  · exact hyo' h
  · split_ifs at h with h1
    · rw [min_eq_right (le_trans hrp.2 (by norm_num [FLOAT_0_499])), max_eq_right hrp.1,
        sub_self, abs_zero] at h
      exact absurd h (not_lt.mpr hpos)
    · exact h1 h
  · split_ifs at h with h1
    · rw [min_eq_right hrl.2, max_eq_right hrl.1] at h
      exact h rfl
    · exact h (not_not.mp h1)
  · split_ifs at h with h1
    · rw [min_eq_right hrm.2, max_eq_right hrm.1] at h
      exact h rfl
    · exact h (not_not.mp h1)

/-- C4, witness: `demo_softbody` then the same tunables with another
iteration cap and gravity. -/
theorem C4_plain_change_keeps_solver_witness :
    (options_from_object demo_limits pow10_floor
      (demo_object { demo_softbody with admmpd_max_admm_iters := 7, admmpd_gravity := 0 })
      (options_from_object demo_limits pow10_floor (demo_object demo_softbody) demo_options).1).2.2
      = false :=
  C4_plain_change_keeps_solver demo_limits pow10_floor (demo_object demo_softbody)
    (demo_object { demo_softbody with admmpd_max_admm_iters := 7, admmpd_gravity := 0 })
    demo_softbody { demo_softbody with admmpd_max_admm_iters := 7, admmpd_gravity := 0 }
    demo_options rfl rfl rfl rfl rfl rfl rfl
    (by norm_num [demo_softbody]) (by norm_num [demo_softbody])
    (by norm_num [demo_softbody, demo_limits]) (by norm_num [demo_softbody, demo_limits])
    (by norm_num [demo_softbody, demo_options, pow10_floor, diffeps, Int.toNat])

/-- C5, counterexample.  The stored density 1/2 differs from the clamped new
density `max 1 (1/2) = 1` by more than `1e-10`, every other structural value
agrees, and yet `reset_solver` is false: the test compares the stored value
with the raw host value 1/2. -/
theorem C5_counterexample :
    diffeps < |max 1 (1 / 2 : Rat) - ({ demo_options with density_kgm3 := 1 / 2 } : Options).density_kgm3| ∧
    (options_from_object demo_limits pow10_floor
      (demo_object { demo_softbody with admmpd_density_kgm3 := 1 / 2 })
      { demo_options with density_kgm3 := 1 / 2 }).2.2 = false := by
  constructor
  · norm_num [diffeps, lt_abs]
  · rw [Bool.eq_false_iff, Ne, ofo_reset _ _ _ _ _ rfl]
    norm_num [demo_softbody, demo_options, pow10_floor, diffeps, lt_abs, Int.toNat]

/-- C5, amended.  Let the structural values stored in `o` lie in their valid
ranges.  If for some structural parameter the clamped new value differs from
the stored one by more than `1e-10`, then `options_from_object` reports
`reset_solver = true`. -/
theorem C5_structural_change_resets (lim : Limits) (p : Rat → Rat) (ob : Object)
    (t : SoftBody) (o : Options) (ht : ob.soft = some t)
    (hod : 1 ≤ o.density_kgm3)
    (hop : 0 ≤ o.poisson ∧ o.poisson ≤ 499 / 1000)
    (hol : 0 ≤ o.linsolver ∧ o.linsolver ≤ lim.LINSOLVER_NUM - 1)
    (hom : 0 ≤ o.elastic_material ∧ o.elastic_material ≤ lim.ELASTIC_NUM - 1)
    (hchg :
      diffeps < |max 1 t.admmpd_density_kgm3 - o.density_kgm3| ∨
      diffeps < |p (max 0 t.admmpd_youngs_exp) - o.youngs| ∨
      diffeps < |max 0 (min (499 / 1000) t.admmpd_poisson) - o.poisson| ∨
      diffeps < |((max 0 (min (lim.LINSOLVER_NUM - 1) t.admmpd_linsolver) : Int) : Rat)
                  - (o.linsolver : Rat)| ∨
      diffeps < |((max 0 (min (lim.ELASTIC_NUM - 1) t.admmpd_material) : Int) : Rat)
                  - (o.elastic_material : Rat)|) :
    (options_from_object lim p ob o).2.2 = true := by
  have hpos : (0 : Rat) < diffeps := by norm_num [diffeps]
  rw [ofo_reset lim p ob t o ht]
  rcases hchg with h | h | h | h | h
  · left
    rw [gt_iff_lt, lt_abs]
    rw [lt_abs] at h
    rcases le_total 1 t.admmpd_density_kgm3 with h1 | h1
    · rw [max_eq_right h1] at h
      rcases h with h | h
      · right; linarith
      · left; linarith
    · rw [max_eq_left h1] at h
      rcases h with h | h
      · right; linarith
      · left; linarith
  · right; left
    rw [gt_iff_lt, abs_sub_comm]
    exact h
  · right; right; left
    rw [gt_iff_lt, lt_abs]
    rw [lt_abs] at h
    rcases le_total t.admmpd_poisson 0 with h0 | h0
    · rw [max_eq_left (le_trans (min_le_right _ _) h0)] at h
      rcases h with h | h
      · right; linarith [hop.1]
      · left; linarith
    · rcases le_total t.admmpd_poisson (499 / 1000) with h1 | h1
      · rw [min_eq_right h1, max_eq_right h0] at h
        rcases h with h | h
        · right; linarith
        · left; linarith
      · rw [min_eq_left h1, max_eq_right (by norm_num)] at h
        rcases h with h | h
        · right; linarith
        · left; linarith [hop.2]
  · right; right; right; left
    intro heq
    rw [← heq, min_eq_right hol.2, max_eq_right hol.1, sub_self, abs_zero] at h
    exact absurd h (not_lt.mpr hpos.le)
  · right; right; right; right
    intro heq
    rw [← heq, min_eq_right hom.2, max_eq_right hom.1, sub_self, abs_zero] at h
    exact absurd h (not_lt.mpr hpos.le)

/-- C5, witness: the host density moves from 1522 to 1000. -/
theorem C5_structural_change_resets_witness :
    (options_from_object demo_limits pow10_floor
      (demo_object { demo_softbody with admmpd_density_kgm3 := 1000 }) demo_options).2.2 = true :=
  C5_structural_change_resets demo_limits pow10_floor
    (demo_object { demo_softbody with admmpd_density_kgm3 := 1000 })
    { demo_softbody with admmpd_density_kgm3 := 1000 } demo_options rfl
    (by norm_num [demo_options]) (by norm_num [demo_options])
    (by norm_num [demo_options, demo_limits]) (by norm_num [demo_options, demo_limits])
    (Or.inl (by norm_num [demo_options, diffeps, lt_abs]))

/-- C6, the code at the failing input.  The host exponent 7 asks for a Young's
modulus of 10^7 while 10^6 is stored: after the call the field `youngs` still
holds 10^6 and the new modulus sits in `density_kgm3`, whose host value is
1522. -/
theorem C6_youngs_lands_in_density :
    (options_from_object demo_limits pow10_floor
      (demo_object { demo_softbody with admmpd_youngs_exp := 7 }) demo_options).1.youngs = 1000000 ∧
    (options_from_object demo_limits pow10_floor
      (demo_object { demo_softbody with admmpd_youngs_exp := 7 }) demo_options).1.density_kgm3
        = 10000000 ∧
    diffeps < |demo_options.youngs - pow10_floor (max 0 7)| := by
  refine ⟨?_, ?_, ?_⟩
  · rw [ofo_youngs]
    rfl
  · rw [ofo_density _ _ _ _ _ rfl]
    norm_num [demo_softbody, demo_options, pow10_floor, diffeps, lt_abs, Int.toNat]
  · norm_num [demo_options, pow10_floor, diffeps, lt_abs, Int.toNat]

/-- C7.  With soft-body settings present, the eight non-structural fields of
the resulting options are the clamped host values, whatever the previous
options were; the clamped values lie in their ranges (for the log level this
uses that the enumeration is not empty). -/
theorem C7_plain_options_copied (lim : Limits) (p : Rat → Rat) (ob : Object)
    (t : SoftBody) (o : Options) (ht : ob.soft = some t) (hnum : 1 ≤ lim.LOGLEVEL_NUM) :
    ((options_from_object lim p ob o).1.max_admm_iters = max 1 t.admmpd_max_admm_iters ∧
      1 ≤ (options_from_object lim p ob o).1.max_admm_iters) ∧
    ((options_from_object lim p ob o).1.min_res = max 0 t.admmpd_converge_eps ∧
      0 ≤ (options_from_object lim p ob o).1.min_res) ∧
    ((options_from_object lim p ob o).1.mult_pk = max 0 (min 1 t.admmpd_goalstiff) ∧
      0 ≤ (options_from_object lim p ob o).1.mult_pk ∧
      (options_from_object lim p ob o).1.mult_pk ≤ 1) ∧
    ((options_from_object lim p ob o).1.mult_ck = max 0 (min 1 t.admmpd_collisionstiff) ∧
      0 ≤ (options_from_object lim p ob o).1.mult_ck ∧
      (options_from_object lim p ob o).1.mult_ck ≤ 1) ∧
    ((options_from_object lim p ob o).1.log_level
        = max 0 (min (lim.LOGLEVEL_NUM - 1) t.admmpd_loglevel) ∧
      0 ≤ (options_from_object lim p ob o).1.log_level ∧
      (options_from_object lim p ob o).1.log_level ≤ lim.LOGLEVEL_NUM - 1) ∧
    (options_from_object lim p ob o).1.floor = t.admmpd_floor_z ∧
    (options_from_object lim p ob o).1.self_collision = decide (t.admmpd_self_collision ≠ 0) ∧
    (options_from_object lim p ob o).1.grav = (0, 0, t.admmpd_gravity) := by
  have hnum' : (0 : Int) ≤ lim.LOGLEVEL_NUM - 1 := by omega
  rw [ofo_some lim p ob t o ht]
  simp only [check_material_eq, check_linsolver_eq, check_poisson_eq, check_youngs_eq,
    check_density_eq, set_plain_options]
  refine ⟨⟨trivial, le_max_left _ _⟩, ⟨trivial, le_max_left _ _⟩,
    ⟨trivial, le_max_left _ _, ?_⟩, ⟨trivial, le_max_left _ _, ?_⟩,
    ⟨trivial, le_max_left _ _, ?_⟩, trivial, trivial, trivial⟩
  · exact max_le (by norm_num) (min_le_left _ _)
  · exact max_le (by norm_num) (min_le_left _ _)
  · exact max_le hnum' (min_le_left _ _)

/-- C7, witness at `demo_softbody`, starting from options that hold other
values. -/
theorem C7_plain_options_copied_witness :
    (options_from_object demo_limits pow10_floor (demo_object demo_softbody)
      { demo_options with max_admm_iters := 0, mult_pk := 5 }).1.max_admm_iters = 20 ∧
    (options_from_object demo_limits pow10_floor (demo_object demo_softbody)
      { demo_options with max_admm_iters := 0, mult_pk := 5 }).1.mult_pk = 1 / 2 := by
  have h := C7_plain_options_copied demo_limits pow10_floor (demo_object demo_softbody)
    demo_softbody { demo_options with max_admm_iters := 0, mult_pk := 5 } rfl
    (by norm_num [demo_limits])
  refine ⟨h.1.1.trans ?_, h.2.2.1.1.trans ?_⟩
  · norm_num [demo_softbody]
  · norm_num [demo_softbody]

/-- C8, counterexample.  A stored Poisson ratio of 7/10 that equals the host
value is not rewritten, so it stays above 0.499; and when the host value 7/10
meets a stored 399/1000 the value written is the number of the literal
`0.499f`, which also lies above 0.499. -/
theorem C8_counterexample :
    ((options_from_object demo_limits pow10_floor
      (demo_object { demo_softbody with admmpd_poisson := 7 / 10 })
      { demo_options with poisson := 7 / 10 }).1.poisson = 7 / 10 ∧
     ¬ ((7 / 10 : Rat) ≤ 499 / 1000)) ∧
    ((options_from_object demo_limits pow10_floor
      (demo_object { demo_softbody with admmpd_poisson := 7 / 10 })
      demo_options).1.poisson = 8371831 / 16777216 ∧
     ¬ ((8371831 / 16777216 : Rat) ≤ 499 / 1000)) := by
  refine ⟨⟨?_, by norm_num⟩, ⟨?_, by norm_num⟩⟩
  · rw [ofo_poisson _ _ _ _ _ rfl]
    norm_num [demo_softbody, demo_options, diffeps]
  · rw [ofo_poisson _ _ _ _ _ rfl]
    norm_num [demo_softbody, demo_options, diffeps, lt_abs, FLOAT_0_499]

/-- C8, amended.  With soft-body settings present and for every previous
options, the stored Poisson ratio after the call is the host value clamped to
[0, `0.499f`] when the previous value differs from the host value by more
than `1e-10`, and the previous value otherwise; it lies in [0, `0.499f`]
whenever that test fires or the previous value already lay in that range.
The bound `0.499f` is the number of the `float` literal, slightly above
0.499. -/
theorem C8_poisson_range (lim : Limits) (p : Rat → Rat) (ob : Object)
    (t : SoftBody) (o : Options) (ht : ob.soft = some t) :
    (options_from_object lim p ob o).1.poisson =
      (if |o.poisson - t.admmpd_poisson| > diffeps then max 0 (min FLOAT_0_499 t.admmpd_poisson)
       else o.poisson) ∧
    ((diffeps < |o.poisson - t.admmpd_poisson| ∨ (0 ≤ o.poisson ∧ o.poisson ≤ FLOAT_0_499)) →
      0 ≤ (options_from_object lim p ob o).1.poisson ∧
      (options_from_object lim p ob o).1.poisson ≤ FLOAT_0_499) ∧
    (499 / 1000 : Rat) < FLOAT_0_499 := by
  rw [ofo_poisson lim p ob t o ht]
  refine ⟨rfl, ?_, by norm_num [FLOAT_0_499]⟩
  intro h
  split_ifs with h1
  · exact ⟨le_max_left _ _, max_le (by norm_num [FLOAT_0_499]) (min_le_left _ _)⟩
  · rcases h with h | h
    · exact absurd h h1
    · exact h

/-- C8, witness: a host Poisson ratio of 7/10 against a stored 399/1000 is
clamped, and a stored 7/10 equal to the host value is kept. -/
theorem C8_poisson_range_witness :
    (0 ≤ (options_from_object demo_limits pow10_floor
      (demo_object { demo_softbody with admmpd_poisson := 7 / 10 }) demo_options).1.poisson ∧
     (options_from_object demo_limits pow10_floor
      (demo_object { demo_softbody with admmpd_poisson := 7 / 10 }) demo_options).1.poisson
        ≤ FLOAT_0_499) ∧
    (options_from_object demo_limits pow10_floor
      (demo_object { demo_softbody with admmpd_poisson := 7 / 10 })
      { demo_options with poisson := 7 / 10 }).1.poisson =
      (if |({ demo_options with poisson := 7 / 10 } : Options).poisson
            - ({ demo_softbody with admmpd_poisson := 7 / 10 } : SoftBody).admmpd_poisson|
            > diffeps then
        max 0 (min FLOAT_0_499
          ({ demo_softbody with admmpd_poisson := 7 / 10 } : SoftBody).admmpd_poisson)
       else ({ demo_options with poisson := 7 / 10 } : Options).poisson) :=
  ⟨(C8_poisson_range demo_limits pow10_floor
      (demo_object { demo_softbody with admmpd_poisson := 7 / 10 })
      { demo_softbody with admmpd_poisson := 7 / 10 } demo_options rfl).2.1
      (Or.inl (by norm_num [demo_options, diffeps, lt_abs])),
   (C8_poisson_range demo_limits pow10_floor
      (demo_object { demo_softbody with admmpd_poisson := 7 / 10 })
      { demo_softbody with admmpd_poisson := 7 / 10 }
      { demo_options with poisson := 7 / 10 } rfl).1⟩

/-! ## Session: lemmas -/

@[simp] theorem strcpy_error_idata (s : ADMMPDInterfaceData) (m : String) :
    (strcpy_error s m).idata = s.idata := rfl

@[simp] theorem strcpy_error_out_totverts (s : ADMMPDInterfaceData) (m : String) :
    (strcpy_error s m).out_totverts = s.out_totverts := rfl

theorem tetgen_attached (env : Env) (s s' : ADMMPDInterfaceData) (ob : Object)
    (vc : List (Rat × Rat × Rat)) (g : Gen)
    (h : admmpd_init_with_tetgen env s ob vc = some (g, s')) (ha : attached s) :
    attached s' ∧ (∀ c, g = Gen.ret c → c ≠ 0 → s'.last_error = s.last_error) := by
  simp only [admmpd_init_with_tetgen] at h
  unfold attached at *
  repeat' split at h
  all_goals simp_all
  all_goals (obtain ⟨rfl, rfl⟩ := h; simp_all)

theorem lattice_attached (env : Env) (s s' : ADMMPDInterfaceData) (ob : Object)
    (vc : List (Rat × Rat × Rat)) (g : Gen)
    (h : admmpd_init_with_lattice env s ob vc = some (g, s')) (ha : attached s) :
    attached s' ∧ (∀ c, g = Gen.ret c → c ≠ 0 → s'.last_error = s.last_error) := by
  simp only [admmpd_init_with_lattice] at h
  unfold attached at *
  repeat' split at h
  all_goals simp_all
  all_goals (obtain ⟨rfl, rfl⟩ := h; simp_all)

theorem cloth_attached (env : Env) (s s' : ADMMPDInterfaceData) (ob : Object)
    (vc : List (Rat × Rat × Rat)) (g : Gen)
    (h : admmpd_init_as_cloth env s ob vc = some (g, s')) (ha : attached s) :
    attached s' ∧ (∀ c, g = Gen.ret c → c ≠ 0 → s'.last_error = s.last_error) := by
  simp only [admmpd_init_as_cloth] at h
  unfold attached at *
  repeat' split at h
  all_goals simp_all
  all_goals (obtain ⟨rfl, rfl⟩ := h; simp_all)

theorem reinit_attached (env : Env) (s s' : ADMMPDInterfaceData) (r : Int)
    (h : admmpd_reinit_solver env s = some (r, s')) (ha : attached s) :
    attached s' ∧ (r ≠ 0 → s'.last_error = s.last_error) := by
  simp only [admmpd_reinit_solver] at h
  unfold attached at *
  repeat' split at h
  all_goals simp_all
  all_goals (obtain ⟨rfl, rfl⟩ := h; simp_all)


theorem init_internal_data_attached (env : Env) (s : ADMMPDInterfaceData) (ob : Object)
    (sb : SoftBody) :
    attached (init_internal_data env s ob sb) ∧
    (init_internal_data env s ob sb).last_error = no_error := by
  constructor
  · simp [attached, init_internal_data]
  · rfl

theorem init_mesh_attached (env : Env) (s s' : ADMMPDInterfaceData) (ob : Object)
    (vc : List (Rat × Rat × Rat)) (mode : Int) (g : Gen)
    (h : init_mesh env s ob vc mode = some (g, s')) (ha : attached s) :
    attached s' ∧ (∀ c, g = Gen.ret c → c ≠ 0 → s'.last_error = s.last_error) := by
  unfold init_mesh at h
  split_ifs at h
  · exact tetgen_attached env s s' ob vc g h ha
  · exact cloth_attached env s s' ob vc g h ha
  · exact lattice_attached env s s' ob vc g h ha

theorem init_attached (env : Env) (s s' : ADMMPDInterfaceData) (ob : Object) (sb : SoftBody)
    (vc : List (Rat × Rat × Rat)) (mode : Int) (r : Int) (hsb : ob.soft = some sb)
    (h : admmpd_init env (some s) (some ob) vc mode = some (r, s')) :
    attached s' ∧ (r ≠ 0 → s'.last_error = no_error) := by
  simp only [admmpd_init, hsb] at h
  have h0 := init_internal_data_attached env s ob sb
  cases hm : init_mesh env (init_internal_data env s ob sb) ob vc mode with
  | none => simp [hm] at h
  | some gs =>
    obtain ⟨g, s1⟩ := gs
    have h1 := init_mesh_attached env _ s1 ob vc mode g hm h0.1
    rw [hm] at h
    cases g with
    | thrown e =>
      simp only [Option.some.injEq, Prod.mk.injEq] at h
      obtain ⟨rfl, rfl⟩ := h
      exact ⟨h1.1, fun hne => absurd rfl hne⟩
    | ret c =>
      simp only at h
      split_ifs at h with hc
      · simp only [Option.some.injEq, Prod.mk.injEq] at h
        obtain ⟨rfl, rfl⟩ := h
        exact ⟨h1.1, fun hne => absurd rfl hne⟩
      · have hc0 : c ≠ 0 := fun hc0 => hc (Or.inl hc0)
        cases hr : admmpd_reinit_solver env s1 with
        | none => simp [hr] at h
        | some rs =>
          obtain ⟨ok, s2⟩ := rs
          have h2 := reinit_attached env s1 s2 ok hr h1.1
          rw [hr] at h
          simp only at h
          split_ifs at h with hok
          · simp only [Option.some.injEq, Prod.mk.injEq] at h
            obtain ⟨rfl, rfl⟩ := h
            exact ⟨h2.1, fun hne => absurd rfl hne⟩
          · simp only [Option.some.injEq, Prod.mk.injEq] at h
            obtain ⟨rfl, rfl⟩ := h
            refine ⟨h2.1, fun _ => ?_⟩
            rw [h2.2 hok, h1.2 c rfl hc0, h0.2]

/-! ## Solve driver: lemmas -/

theorem solve_substeps_no_fault (env : Env) (m : Option Mesh) (op : Options)
    (hnf : ∀ c, (env.solver_solve c).fault = none) :
    ∀ (n : Nat) (dat : SolverData) (col : Option Collision) (calls : List SolveCall),
      solve_substeps env m op n dat col calls =
        { data := ((substep env m op)^[n] (dat, col)).1,
          collision := ((substep env m op)^[n] (dat, col)).2,
          fault := none,
          calls := calls ++ (List.range n).map (fun k =>
            { mesh := m, options := op, data := ((substep env m op)^[k] (dat, col)).1,
              collision := ((substep env m op)^[k] (dat, col)).2 }) } := by
  intro n
  induction n with
  | zero => intro dat col calls; simp [solve_substeps]
  | succ n ih =>
    intro dat col calls
    simp only [solve_substeps, hnf]
    rw [ih]
    simp only [Function.iterate_succ_apply, List.range_succ_eq_map, List.map_cons,
      List.map_map, Function.iterate_zero, id_eq, List.append_assoc, List.singleton_append]
    rfl

theorem solve_substeps_calls (env : Env) (m : Option Mesh) (op : Options) :
    ∀ (n : Nat) (dat : SolverData) (col : Option Collision) (calls : List SolveCall),
      ∃ rest, (solve_substeps env m op n dat col calls).calls = calls ++ rest ∧
        rest.length ≤ n ∧
        (0 < n → rest.head? = some { mesh := m, options := op, data := dat, collision := col }) := by
  intro n
  induction n with
  | zero => intro dat col calls; exact ⟨[], by simp [solve_substeps]⟩
  | succ n ih =>
    intro dat col calls
    cases hf : (env.solver_solve ⟨m, op, dat, col⟩).fault with
    | some e' => exact ⟨[⟨m, op, dat, col⟩], by simp [solve_substeps, hf]⟩
    | none =>
      simp only [solve_substeps, hf]
      obtain ⟨rest, h1, h2, _⟩ := ih (env.solver_solve ⟨m, op, dat, col⟩).data
        (env.solver_solve ⟨m, op, dat, col⟩).collision (calls ++ [⟨m, op, dat, col⟩])
      refine ⟨⟨m, op, dat, col⟩ :: rest, ?_, ?_, ?_⟩
      · rw [h1]; simp
      · simp; omega
      · simp

theorem solve_substeps_fault (env : Env) (m : Option Mesh) (op : Options) (e : String) :
    ∀ (n : Nat) (dat : SolverData) (col : Option Collision) (calls : List SolveCall),
      (solve_substeps env m op n dat col calls).fault = some e →
      ∃ c, (solve_substeps env m op n dat col calls).calls.getLast? = some c ∧
        c.mesh = m ∧ c.options = op ∧
        (env.solver_solve c).fault = some e ∧
        (solve_substeps env m op n dat col calls).data = (env.solver_solve c).data ∧
        (solve_substeps env m op n dat col calls).collision = (env.solver_solve c).collision := by
  intro n
  induction n with
  | zero => intro dat col calls h; simp [solve_substeps] at h
  | succ n ih =>
    intro dat col calls h
    cases hf : (env.solver_solve ⟨m, op, dat, col⟩).fault with
    | some e' =>
      simp only [solve_substeps, hf, Option.some.injEq] at h ⊢
      subst h
      exact ⟨⟨m, op, dat, col⟩, by simp, rfl, rfl, hf, rfl, rfl⟩
    | none =>
      simp only [solve_substeps, hf] at h ⊢
      exact ih _ _ _ h


theorem demo_session_idata :
    demo_session.idata =
      some { collision := none, mesh := some { kind := MeshKind.TriangleMesh },
             options := some demo_options, data := some demo_data, solver := some {},
             substeps := 2 } := rfl

theorem one_le_substeps (n : Int) : 0 < (max 1 n).toNat := by
  have h : (1 : Int) ≤ max 1 n := le_max_left _ _
  omega

theorem error_text_no_error (s : ADMMPDInterfaceData) (h : s.last_error = no_error) :
    error_text s = [] := by
  unfold error_text
  rw [h]
  rfl

theorem admmpd_solve_eq (env : Env) (s : ADMMPDInterfaceData) (ob : Object) (sb : SoftBody)
    (d : ADMMPDInternalData) (op : Options) (dat : SolverData) (sol : Solver)
    (hsb : ob.soft = some sb) (hd : s.idata = some d) (hop : d.options = some op)
    (hdat : d.data = some dat) (hsol : d.solver = some sol) :
    admmpd_solve env (some s) (some ob) =
      match (solve_substeps env d.mesh op (max 1 d.substeps).toNat dat d.collision []).fault with
      | some e =>
        some (0,
          strcpy_error { s with idata := some { d with
            data := some { (solve_substeps env d.mesh op (max 1 d.substeps).toNat dat
                              d.collision []).data with
                           x := (solve_substeps env d.mesh op (max 1 d.substeps).toNat dat
                              d.collision []).data.x_start },
            collision := (solve_substeps env d.mesh op (max 1 d.substeps).toNat dat
                              d.collision []).collision } } e,
          (solve_substeps env d.mesh op (max 1 d.substeps).toNat dat d.collision []).calls)
      | none =>
        some (1,
          { s with idata := some { d with
            data := some (solve_substeps env d.mesh op (max 1 d.substeps).toNat dat
                              d.collision []).data,
            collision := (solve_substeps env d.mesh op (max 1 d.substeps).toNat dat
                              d.collision []).collision } },
          (solve_substeps env d.mesh op (max 1 d.substeps).toNat dat d.collision []).calls) := by
  have hnull : ¬ ((some ob : Option Object) = none ∨
      ((some ob : Option Object).bind (fun o => o.soft)) = none) := by
    simp [hsb]
  simp only [admmpd_solve, hd, hop, hdat, hsol, if_neg hnull]

theorem solve_attached_calls (env : Env) (s : ADMMPDInterfaceData) (ob : Object) (sb : SoftBody)
    (hsb : ob.soft = some sb) (ha : attached s) :
    ∃ r s' calls, admmpd_solve env (some s) (some ob) = some (r, s', calls) ∧ calls ≠ [] := by
  unfold attached at ha
  cases hd : s.idata with
  | none => simp [hd] at ha
  | some d =>
    rw [hd] at ha
    simp only [Option.bind_some, Option.isSome_iff_exists] at ha
    obtain ⟨⟨op, hop⟩, ⟨dat, hdat⟩, ⟨sol, hsol⟩⟩ := ha
    obtain ⟨rest, hcalls, _, hhead⟩ :=
      solve_substeps_calls env d.mesh op (max 1 d.substeps).toNat dat d.collision []
    have hne : (solve_substeps env d.mesh op (max 1 d.substeps).toNat dat d.collision []).calls
        ≠ [] := by
      rw [hcalls]
      intro h0
      have := hhead (one_le_substeps _)
      simp only [List.nil_append] at h0
      rw [h0] at this
      simp at this
    rw [admmpd_solve_eq env s ob sb d op dat sol hsb hd hop hdat hsol]
    cases (solve_substeps env d.mesh op (max 1 d.substeps).toNat dat d.collision []).fault with
    | none => exact ⟨_, _, _, rfl, hne⟩
    | some e => exact ⟨_, _, _, rfl, hne⟩

/-! ## Session: the claims -/

/-- C1, counterexample.  The solver records the incoming positions in
`x_start` at every advance.  With two substeps the first advance moves the
positions from `[[0,0,0]]` to `[[1,0,0]]` and the second one faults:
`admmpd_solve` returns 0 after two invocations and the positions are
`[[1,0,0]]`, not the `[[0,0,0]]` held when the call began. -/
theorem C1_counterexample :
    (admmpd_solve (demo_env snapshot_solve true) (some demo_session)
      (some (demo_object demo_softbody))).map
        (fun r => (r.1, r.2.2.length, (r.2.1.idata.bind (fun d => d.data)).map (fun dat => dat.x)))
      = some (0, 2, some [[1, 0, 0]]) ∧
    (demo_session.idata.bind (fun d => d.data)).map (fun dat => dat.x) = some [[0, 0, 0]] := by
  constructor
  · simp [admmpd_solve, demo_object, demo_env, demo_session_idata, solve_substeps,
      snapshot_solve, demo_data]
  · rfl

/-- C1, amended.  If an advance faults during `admmpd_solve` on an
initialized session, the call returns failure and the positions `x` equal
the snapshot `x_start` that the faulting advance left behind; the function
takes no snapshot of its own.  When the solver records its incoming positions
in `x_start`, these are the positions held at the start of the faulting
substep, hence those held at the start of the call when the first substep
faults (the first invocation receives the entry data). -/
theorem C1_fault_restores_x_start (env : Env) (s : ADMMPDInterfaceData) (ob : Object)
    (sb : SoftBody) (d : ADMMPDInternalData) (op : Options) (dat : SolverData) (sol : Solver)
    (e : String)
    (hsb : ob.soft = some sb) (hd : s.idata = some d) (hop : d.options = some op)
    (hdat : d.data = some dat) (hsol : d.solver = some sol)
    (hf : (solve_substeps env d.mesh op (max 1 d.substeps).toNat dat d.collision []).fault
            = some e) :
    ∃ s' calls d' dat' c,
      admmpd_solve env (some s) (some ob) = some (0, s', calls) ∧
      s'.idata = some d' ∧ d'.data = some dat' ∧
      calls.head? = some { mesh := d.mesh, options := op, data := dat, collision := d.collision } ∧
      calls.getLast? = some c ∧ (env.solver_solve c).fault = some e ∧
      dat'.x = (env.solver_solve c).data.x_start ∧
      ((∀ a, (env.solver_solve a).data.x_start = a.data.x) → dat'.x = c.data.x) := by
  obtain ⟨c, hlast, _, _, hcf, hdata, _⟩ :=
    solve_substeps_fault env d.mesh op e _ dat d.collision [] hf
  obtain ⟨rest, hcalls, _, hhead⟩ :=
    solve_substeps_calls env d.mesh op (max 1 d.substeps).toNat dat d.collision []
  rw [admmpd_solve_eq env s ob sb d op dat sol hsb hd hop hdat hsol, hf]
  generalize solve_substeps env d.mesh op (max 1 d.substeps).toNat dat d.collision [] = run
    at hlast hdata hcalls
  have hx : run.data.x_start = (env.solver_solve c).data.x_start := by rw [hdata]
  refine ⟨_, run.calls,
    { d with data := some { run.data with x := run.data.x_start }, collision := run.collision },
    { run.data with x := run.data.x_start }, c, rfl, rfl, rfl, ?_, hlast, hcf, hx,
    fun hsnap => hx.trans (hsnap c)⟩
  rw [hcalls, List.nil_append]
  exact hhead (one_le_substeps _)

/-- C1, witness: the session and the snapshotting solver of the
counterexample. -/
theorem C1_fault_restores_x_start_witness :
    ∃ s' calls d' dat' c,
      admmpd_solve (demo_env snapshot_solve true) (some demo_session)
        (some (demo_object demo_softbody)) = some (0, s', calls) ∧
      s'.idata = some d' ∧ d'.data = some dat' ∧
      calls.head? = some { mesh := some { kind := MeshKind.TriangleMesh }, options := demo_options,
                           data := demo_data, collision := none } ∧
      calls.getLast? = some c ∧
      ((demo_env snapshot_solve true).solver_solve c).fault = some "diverged" ∧
      dat'.x = ((demo_env snapshot_solve true).solver_solve c).data.x_start ∧
      ((∀ a, ((demo_env snapshot_solve true).solver_solve a).data.x_start = a.data.x) →
        dat'.x = c.data.x) :=
  C1_fault_restores_x_start (demo_env snapshot_solve true) demo_session
    (demo_object demo_softbody) demo_softbody
    { collision := none, mesh := some { kind := MeshKind.TriangleMesh },
      options := some demo_options, data := some demo_data, solver := some {}, substeps := 2 }
    demo_options demo_data {} "diverged" rfl rfl rfl rfl rfl
    (by simp [demo_env, solve_substeps, snapshot_solve, demo_data])

/-- C2, counterexample.  In triangle mode the mesh constructor reports
failure: `admmpd_init` returns 0 and the session keeps internal data, and the
following `admmpd_solve` invokes the solver twice and returns 1. -/
theorem C2_counterexample :
    (admmpd_init (demo_env steady_solve false) (some demo_session)
      (some (demo_object demo_softbody)) [] 2).map (fun r => (r.1, r.2.idata.isSome))
      = some (0, true) ∧
    ((admmpd_init (demo_env steady_solve false) (some demo_session)
      (some (demo_object demo_softbody)) [] 2).bind
        (fun r => admmpd_solve (demo_env steady_solve false) (some r.2)
          (some (demo_object demo_softbody)))).map (fun r => (r.1, r.2.2.length))
      = some (1, 2) := by
  constructor
  · simp [admmpd_init, init_internal_data, init_mesh, admmpd_init_as_cloth, demo_object,
      demo_env, demo_tags]
  · simp [admmpd_init, init_internal_data, init_mesh, admmpd_init_as_cloth, demo_object,
      demo_env, demo_tags, admmpd_solve, solve_substeps, steady_solve]

/-- C2, amended.  After a call of `admmpd_init` with non-null handle, object
and soft-body settings that returns failure, the session is not
uninitialized: internal data with options, solver data and a solver is
attached (only the data of the previous session has been discarded), so a
following `admmpd_solve` passes its checks and invokes the solver at least
once. -/
theorem C2_failed_init_keeps_internal_data (env : Env) (s s' : ADMMPDInterfaceData)
    (ob : Object) (sb : SoftBody) (vc : List (Rat × Rat × Rat)) (mode : Int)
    (hsb : ob.soft = some sb)
    (hfail : admmpd_init env (some s) (some ob) vc mode = some (0, s')) :
    attached s' ∧
    ∃ r s'' calls, admmpd_solve env (some s') (some ob) = some (r, s'', calls) ∧ calls ≠ [] :=
  ⟨(init_attached env s s' ob sb vc mode 0 hsb hfail).1,
   solve_attached_calls env s' ob sb hsb (init_attached env s s' ob sb vc mode 0 hsb hfail).1⟩

/-- C2, witness: the failing triangle-mode initialization of the
counterexample. -/
theorem C2_failed_init_keeps_internal_data_witness :
    ∃ s', admmpd_init (demo_env steady_solve false) (some demo_session)
        (some (demo_object demo_softbody)) [] 2 = some (0, s') ∧
      attached s' ∧
      ∃ r s'' calls, admmpd_solve (demo_env steady_solve false) (some s')
        (some (demo_object demo_softbody)) = some (r, s'', calls) ∧ calls ≠ [] :=
  ⟨_, rfl, C2_failed_init_keeps_internal_data (demo_env steady_solve false) demo_session _
    (demo_object demo_softbody) demo_softbody [] 2 rfl rfl⟩

/-- C3.  On an initialized session whose solver advance never faults,
`admmpd_solve` returns 1; with `N = max 1 substeps` it makes exactly `N`
invocations, the invocation number `k` receiving the session's mesh and
options and the solver data and collision adapter obtained by `k` advances
from those held at entry; the session afterwards holds the `N`-fold iterate
and is otherwise unchanged. -/
theorem C3_solve_runs_all_substeps (env : Env) (s : ADMMPDInterfaceData) (ob : Object)
    (sb : SoftBody) (d : ADMMPDInternalData) (op : Options) (dat : SolverData) (sol : Solver)
    (hsb : ob.soft = some sb) (hd : s.idata = some d) (hop : d.options = some op)
    (hdat : d.data = some dat) (hsol : d.solver = some sol)
    (hnf : ∀ c, (env.solver_solve c).fault = none) :
    ∃ calls : List SolveCall,
      admmpd_solve env (some s) (some ob) =
        some (1,
          { s with idata := some { d with
              data := some
                ((substep env d.mesh op)^[(max 1 d.substeps).toNat] (dat, d.collision)).1,
              collision :=
                ((substep env d.mesh op)^[(max 1 d.substeps).toNat] (dat, d.collision)).2 } },
          calls) ∧
      calls.length = (max 1 d.substeps).toNat ∧
      ∀ k, k < (max 1 d.substeps).toNat →
        calls.get? k = some
          { mesh := d.mesh, options := op,
            data := ((substep env d.mesh op)^[k] (dat, d.collision)).1,
            collision := ((substep env d.mesh op)^[k] (dat, d.collision)).2 } := by
  refine ⟨(List.range (max 1 d.substeps).toNat).map (fun k =>
          { mesh := d.mesh, options := op,
            data := ((substep env d.mesh op)^[k] (dat, d.collision)).1,
            collision := ((substep env d.mesh op)^[k] (dat, d.collision)).2 }), ?_, ?_, ?_⟩
  · rw [admmpd_solve_eq env s ob sb d op dat sol hsb hd hop hdat hsol,
      solve_substeps_no_fault env d.mesh op hnf]
    simp
  · simp
  · intro k hk
    simp [List.get?_eq_getElem?, List.getElem?_range hk]

/-- C3, witness: two substeps of a solver that never faults. -/
theorem C3_solve_runs_all_substeps_witness :
    ∃ calls : List SolveCall,
      admmpd_solve (demo_env steady_solve true) (some demo_session)
          (some (demo_object demo_softbody)) =
        some (1,
          { demo_session with idata := some (
              { collision :=
                  ((substep (demo_env steady_solve true) (some { kind := MeshKind.TriangleMesh })
                    demo_options)^[(max 1 (2 : Int)).toNat] (demo_data, none)).2,
                mesh := some { kind := MeshKind.TriangleMesh },
                options := some demo_options,
                data := some
                  ((substep (demo_env steady_solve true) (some { kind := MeshKind.TriangleMesh })
                    demo_options)^[(max 1 (2 : Int)).toNat] (demo_data, none)).1,
                solver := some {}, substeps := 2 } : ADMMPDInternalData) },
          calls) ∧
      calls.length = (max 1 (2 : Int)).toNat ∧
      ∀ k, k < (max 1 (2 : Int)).toNat →
        calls.get? k = some
          { mesh := some { kind := MeshKind.TriangleMesh }, options := demo_options,
            data := ((substep (demo_env steady_solve true)
              (some { kind := MeshKind.TriangleMesh }) demo_options)^[k] (demo_data, none)).1,
            collision := ((substep (demo_env steady_solve true)
              (some { kind := MeshKind.TriangleMesh }) demo_options)^[k] (demo_data, none)).2 } :=
  C3_solve_runs_all_substeps (demo_env steady_solve true) demo_session
    (demo_object demo_softbody) demo_softbody
    { collision := none, mesh := some { kind := MeshKind.TriangleMesh },
      options := some demo_options, data := some demo_data, solver := some {}, substeps := 2 }
    demo_options demo_data {} rfl rfl rfl rfl rfl (fun _ => rfl)

/-- C9, counterexample.  A session with three output vertices has none after
`admmpd_dealloc`. -/
theorem C9_counterexample :
    demo_session.out_totverts = 3 ∧
    (admmpd_dealloc (some demo_session)).map (fun s => s.out_totverts) = some 0 :=
  ⟨rfl, rfl⟩

/-- C9, amended.  The function `admmpd_dealloc` sets `out_totverts` to zero
and detaches the internal data; what it preserves are the input counts
`mesh_totverts` and `mesh_totfaces` (and the frame rate). -/
theorem C9_dealloc_zeroes_output_count (s : ADMMPDInterfaceData) :
    ∃ s', admmpd_dealloc (some s) = some s' ∧
      s'.out_totverts = 0 ∧ s'.idata = none ∧
      s'.mesh_totverts = s.mesh_totverts ∧ s'.mesh_totfaces = s.mesh_totfaces ∧
      s'.in_framerate = s.in_framerate :=
  ⟨_, rfl, rfl, rfl, rfl, rfl, rfl⟩

/-- C10, counterexample.  The session holds the message "old" from an earlier
call; `admmpd_solve` returns 1 and the message is still there. -/
theorem C10_counterexample :
    (admmpd_solve (demo_env steady_solve true) (some demo_session)
      (some (demo_object demo_softbody))).map (fun r => (r.1, error_text r.2.1))
      = some (1, ['o', 'l', 'd']) := by
  rw [admmpd_solve_eq (demo_env steady_solve true) demo_session (demo_object demo_softbody)
    demo_softbody _ demo_options demo_data {} rfl demo_session_idata rfl rfl rfl,
    solve_substeps_no_fault _ _ _ (fun _ => rfl)]
  rfl

/-- C10, amended.  After a call of `admmpd_init` that returns success the
error buffer is all zero, so the message is empty; a call of `admmpd_solve`
that returns success leaves the error buffer as it was before the call. -/
theorem C10_error_after_success (env : Env) (s : ADMMPDInterfaceData) (ob : Option Object)
    (vc : List (Rat × Rat × Rat)) (mode : Int) :
    (∀ s', admmpd_init env (some s) ob vc mode = some (1, s') →
      s'.last_error = no_error ∧ error_text s' = []) ∧
    (∀ s' calls, admmpd_solve env (some s) ob = some (1, s', calls) →
      s'.last_error = s.last_error) := by
  constructor
  · intro s' h
    cases ob with
    | none => simp [admmpd_init] at h
    | some o =>
      cases hsb : o.soft with
      | none => simp [admmpd_init, hsb] at h
      | some sb =>
        have h1 := (init_attached env s s' o sb vc mode 1 hsb h).2 (by decide)
        exact ⟨h1, error_text_no_error s' h1⟩
  · intro s' calls h
    simp only [admmpd_solve] at h
    repeat' split at h
    all_goals simp_all
    all_goals (obtain ⟨rfl, _⟩ := h; rfl)

/-- C10, witness: a successful triangle-mode initialization and a successful
solve of a session that held the message "old". -/
theorem C10_error_after_success_witness :
    (∃ s', admmpd_init (demo_env steady_solve true) (some demo_session)
        (some (demo_object demo_softbody)) [] 2 = some (1, s') ∧
      s'.last_error = no_error ∧ error_text s' = []) ∧
    (∃ s' calls, admmpd_solve (demo_env steady_solve true) (some demo_session)
        (some (demo_object demo_softbody)) = some (1, s', calls) ∧
      s'.last_error = demo_session.last_error) :=
  ⟨⟨_, rfl, (C10_error_after_success (demo_env steady_solve true) demo_session
      (some (demo_object demo_softbody)) [] 2).1 _ rfl⟩,
   ⟨_, _, rfl, (C10_error_after_success (demo_env steady_solve true) demo_session
      (some (demo_object demo_softbody)) [] 2).2 _ _ rfl⟩⟩


/-! ## Error channel: the claims -/

/-- C11, the code at the failing input.  In triangle mode the mesh
constructor succeeds on a surface without vertices: `admmpd_init` returns 0
through the test `out_totverts == 0`, which writes no message, so the error
text is empty. -/
theorem C11_silent_failure :
    (admmpd_init empty_mesh_env (some demo_session) (some (demo_object demo_softbody)) [] 2).map
      (fun r => (r.1, error_text r.2)) = some (0, []) := by
  rfl

/-- C12, the code on the failing inputs.  A message of 256 characters or more
fills the whole buffer: its first 256 characters are stored, not 255, and
when none of them is zero the buffer holds no terminator, so the text read
from it does not end inside the buffer. -/
theorem C12_long_message_fills_buffer (s : ADMMPDInterfaceData) (str : String)
    (h : 256 ≤ str.length) :
    (strcpy_error s str).last_error = str.data.take 256 ∧
    (strcpy_error s str).last_error.length = ERROR_SIZE ∧
    ((∀ c ∈ str.data.take 256, c ≠ Char.ofNat 0) →
      error_text (strcpy_error s str) = str.data.take 256) := by
  have hlen : str.data.length = str.length := rfl
  have h1 : (strcpy_error s str).last_error = str.data.take 256 := by
    unfold strcpy_error
    have e1 : min 256 (str.length + 1) = 256 := by omega
    have e2 : min 256 str.length = 256 := by omega
    simp only [e1, e2]
    rw [List.drop_eq_nil_of_le (by rw [List.length_replicate]; decide), List.append_nil]
  refine ⟨h1, ?_, ?_⟩
  · rw [h1, List.length_take, hlen, ERROR_SIZE]
    omega
  · intro hz
    unfold error_text
    rw [h1, List.takeWhile_eq_self_iff]
    intro c hc
    simpa using hz c hc

/-- C12, witness: a message of 256 letters. -/
theorem C12_long_message_fills_buffer_witness :
    (strcpy_error demo_session long_message).last_error = long_message.data.take 256 ∧
    (strcpy_error demo_session long_message).last_error.length = ERROR_SIZE ∧
    error_text (strcpy_error demo_session long_message) = long_message.data.take 256 :=
  have h := C12_long_message_fills_buffer demo_session long_message
    (le_of_eq (List.length_replicate 256 'e').symm)
  ⟨h.1, h.2.1, h.2.2 (fun c hc => by
    have hc' : c = 'e' := List.eq_of_mem_replicate (List.mem_of_mem_take hc)
    rw [hc']
    decide)⟩

/-! ## Timestep and failed steps -/

theorem ofo_timestep (lim : Limits) (p : Rat → Rat) (ob : Object) (o : Options) :
    (options_from_object lim p ob o).1.timestep_s = o.timestep_s := by
  cases hsb : ob.soft with
  | none => simp [options_from_object, hsb]
  | some sb =>
    rw [ofo_some lim p ob sb o hsb]
    simp [check_material_eq, check_linsolver_eq, check_poisson_eq, check_youngs_eq,
      check_density_eq, set_plain_options]

theorem tetgen_keeps_options (env : Env) (s s' : ADMMPDInterfaceData) (ob : Object)
    (vc : List (Rat × Rat × Rat)) (g : Gen)
    (h : admmpd_init_with_tetgen env s ob vc = some (g, s')) :
    s'.idata.bind (fun d => d.options) = s.idata.bind (fun d => d.options) ∧
    s'.idata.map (fun d => d.substeps) = s.idata.map (fun d => d.substeps) ∧
    s'.idata.bind (fun d => d.collision) = s.idata.bind (fun d => d.collision) := by
  simp only [admmpd_init_with_tetgen] at h
  repeat' split at h
  all_goals simp_all
  all_goals (obtain ⟨rfl, rfl⟩ := h; simp_all)

theorem lattice_keeps_options (env : Env) (s s' : ADMMPDInterfaceData) (ob : Object)
    (vc : List (Rat × Rat × Rat)) (g : Gen)
    (h : admmpd_init_with_lattice env s ob vc = some (g, s')) :
    s'.idata.bind (fun d => d.options) = s.idata.bind (fun d => d.options) ∧
    s'.idata.map (fun d => d.substeps) = s.idata.map (fun d => d.substeps) := by
  simp only [admmpd_init_with_lattice] at h
  repeat' split at h
  all_goals simp_all
  all_goals (obtain ⟨rfl, rfl⟩ := h; simp_all)

theorem cloth_keeps_options (env : Env) (s s' : ADMMPDInterfaceData) (ob : Object)
    (vc : List (Rat × Rat × Rat)) (g : Gen)
    (h : admmpd_init_as_cloth env s ob vc = some (g, s'))
    (hc : s.idata.bind (fun d => d.collision) = none) :
    s'.idata.bind (fun d => d.options) = s.idata.bind (fun d => d.options) ∧
    s'.idata.map (fun d => d.substeps) = s.idata.map (fun d => d.substeps) ∧
    s'.idata.bind (fun d => d.collision) = none := by
  simp only [admmpd_init_as_cloth] at h
  repeat' split at h
  all_goals simp_all
  all_goals (obtain ⟨rfl, rfl⟩ := h; simp_all)

theorem reinit_keeps_options (env : Env) (s s' : ADMMPDInterfaceData) (r : Int)
    (h : admmpd_reinit_solver env s = some (r, s')) :
    s'.idata.bind (fun d => d.options) = s.idata.bind (fun d => d.options) ∧
    s'.idata.map (fun d => d.substeps) = s.idata.map (fun d => d.substeps) ∧
    s'.idata.bind (fun d => d.collision) = s.idata.bind (fun d => d.collision) := by
  simp only [admmpd_reinit_solver] at h
  repeat' split at h
  all_goals simp_all
  all_goals (obtain ⟨rfl, rfl⟩ := h; simp_all)


theorem init_internal_data_options (env : Env) (s : ADMMPDInterfaceData) (ob : Object)
    (sb : SoftBody) :
    ((init_internal_data env s ob sb).idata.bind (fun d => d.options)).map (fun o => o.timestep_s)
      = some (1 / (min 1000 (max 1 s.in_framerate) * ((max 1 sb.admmpd_substeps : Int) : Rat))) ∧
    (init_internal_data env s ob sb).idata.map (fun d => d.substeps)
      = some (max 1 sb.admmpd_substeps) ∧
    (init_internal_data env s ob sb).idata.bind (fun d => d.collision) = none := by
  refine ⟨?_, rfl, rfl⟩
  simp [init_internal_data, ofo_timestep, dealloc, div_div]
  rw [div_eq_mul_inv, mul_comm]

theorem init_options (env : Env) (s s' : ADMMPDInterfaceData) (ob : Object) (sb : SoftBody)
    (vc : List (Rat × Rat × Rat)) (mode : Int) (r : Int) (hsb : ob.soft = some sb)
    (h : admmpd_init env (some s) (some ob) vc mode = some (r, s')) :
    (s'.idata.bind (fun d => d.options)).map (fun o => o.timestep_s)
      = some (1 / (min 1000 (max 1 s.in_framerate) * ((max 1 sb.admmpd_substeps : Int) : Rat))) ∧
    s'.idata.map (fun d => d.substeps) = some (max 1 sb.admmpd_substeps) ∧
    (mode = env.tags.ADMMPD_INIT_MODE_TRIANGLE → s'.idata.bind (fun d => d.collision) = none) := by
  simp only [admmpd_init, hsb] at h
  obtain ⟨h0, h0', h0c⟩ := init_internal_data_options env s ob sb
  cases hm : init_mesh env (init_internal_data env s ob sb) ob vc mode with
  | none => simp [hm] at h
  | some gs =>
    obtain ⟨g, s1⟩ := gs
    have h1 : (s1.idata.bind (fun d => d.options)).map (fun o => o.timestep_s)
          = some (1 / (min 1000 (max 1 s.in_framerate) *
              ((max 1 sb.admmpd_substeps : Int) : Rat))) ∧
        s1.idata.map (fun d => d.substeps) = some (max 1 sb.admmpd_substeps) ∧
        (mode = env.tags.ADMMPD_INIT_MODE_TRIANGLE →
          s1.idata.bind (fun d => d.collision) = none) := by
      unfold init_mesh at hm
      split_ifs at hm with ht hc
      · have := tetgen_keeps_options env _ s1 ob vc g hm
        exact ⟨by rw [this.1]; exact h0, by rw [this.2.1]; exact h0',
          fun _ => this.2.2.trans h0c⟩
      · have := cloth_keeps_options env _ s1 ob vc g hm h0c
        exact ⟨by rw [this.1]; exact h0, by rw [this.2.1]; exact h0', fun _ => this.2.2⟩
      · have := lattice_keeps_options env _ s1 ob vc g hm
        exact ⟨by rw [this.1]; exact h0, by rw [this.2]; exact h0',
          fun hmode => absurd hmode hc⟩
    rw [hm] at h
    cases g with
    | thrown e =>
      simp only [Option.some.injEq, Prod.mk.injEq] at h
      obtain ⟨rfl, rfl⟩ := h
      simpa using h1
    | ret c =>
      simp only at h
      split_ifs at h with hc
      · simp only [Option.some.injEq, Prod.mk.injEq] at h
        obtain ⟨rfl, rfl⟩ := h
        exact h1
      · cases hr : admmpd_reinit_solver env s1 with
        | none => simp [hr] at h
        | some rs =>
          obtain ⟨ok, s2⟩ := rs
          have h2 := reinit_keeps_options env s1 s2 ok hr
          rw [hr] at h
          simp only at h
          have hs2 : s' = s2 := by
            split_ifs at h <;>
              (simp only [Option.some.injEq, Prod.mk.injEq] at h; exact h.2.symm)
          subst hs2
          rw [h2.1, h2.2.1, h2.2.2]
          exact h1


/-- C18, counterexample.  With a host frame rate of 2000 and two substeps the
stored timestep is 1/2000, the clamped rate 1000 times the substep count,
and not 1/(2000 * 2). -/
theorem C18_counterexample :
    (admmpd_init (demo_env steady_solve true) (some { demo_session with in_framerate := 2000 })
      (some (demo_object demo_softbody)) [] 2).map
        (fun r => (r.1, r.2.idata.map (fun d => d.substeps),
          (r.2.idata.bind (fun d => d.options)).map (fun o => o.timestep_s)))
      = some (1, some 2, some (1 / 2000)) ∧
    (1 / 2000 : Rat) ≠ 1 / (2000 * 2) := by
  constructor
  · have hs : ∃ s', admmpd_init (demo_env steady_solve true)
        (some { demo_session with in_framerate := 2000 })
        (some (demo_object demo_softbody)) [] 2 = some (1, s') := ⟨_, rfl⟩
    obtain ⟨s', hs'⟩ := hs
    have h := init_options _ _ _ _ demo_softbody _ _ _ rfl hs'
    rw [hs']
    simp only [Option.map_some', h.1, h.2.1, Option.some.injEq, Prod.mk.injEq, true_and]
    norm_num [demo_softbody]
  · norm_num

/-- C18, amended.  After `admmpd_init` (non-null handle, object and soft-body
settings) the session stores the substep count `max 1 admmpd_substeps` and the
timestep `1 / (fps * substeps)`, where `fps` is the host frame rate clamped
to [1, 1000] and `substeps` is that stored count. -/
theorem C18_timestep_from_clamped_rate (env : Env) (s s' : ADMMPDInterfaceData) (ob : Object)
    (sb : SoftBody) (vc : List (Rat × Rat × Rat)) (mode : Int) (r : Int)
    (hsb : ob.soft = some sb)
    (h : admmpd_init env (some s) (some ob) vc mode = some (r, s')) :
    ∃ d op, s'.idata = some d ∧ d.options = some op ∧
      d.substeps = max 1 sb.admmpd_substeps ∧
      op.timestep_s = 1 / (min 1000 (max 1 s.in_framerate) * (d.substeps : Rat)) := by
  obtain ⟨h1, h2, _⟩ := init_options env s s' ob sb vc mode r hsb h
  cases hd : s'.idata with
  | none => simp [hd] at h2
  | some d =>
    cases hop : d.options with
    | none => simp [hd, hop] at h1
    | some op =>
      simp only [hd, hop, Option.some_bind, Option.map_some', Option.some.injEq] at h1 h2
      exact ⟨d, op, rfl, hop, h2, by rw [h1, h2]⟩

/-- C18, witness: 24 frames per second and two substeps. -/
theorem C18_timestep_from_clamped_rate_witness :
    ∃ s' d op, admmpd_init (demo_env steady_solve true) (some demo_session)
        (some (demo_object demo_softbody)) [] 2 = some (1, s') ∧
      s'.idata = some d ∧ d.options = some op ∧
      d.substeps = max 1 demo_softbody.admmpd_substeps ∧
      op.timestep_s = 1 / (min 1000 (max 1 demo_session.in_framerate) * (d.substeps : Rat)) :=
  have h : ∃ s', admmpd_init (demo_env steady_solve true) (some demo_session)
      (some (demo_object demo_softbody)) [] 2 = some (1, s') := ⟨_, rfl⟩
  h.elim fun s' hs' =>
    (C18_timestep_from_clamped_rate (demo_env steady_solve true) demo_session s'
      (demo_object demo_softbody) demo_softbody [] 2 1 rfl hs').elim
      fun d hd => hd.elim fun op hop => ⟨s', d, op, hs', hop⟩

/-- C19.  If an advance faults during `admmpd_solve` on an initialized
session, the call returns 0 and the session afterwards is the one the
faulting advance left, with the positions `x` replaced by `x_start` and the
message of the fault in the error buffer: the velocities `v`, the snapshot
`x_start`, the other solver buffers and the collision adapter are those left
by that advance, and the options, the mesh and every other field of the
session are those held at entry. -/
theorem C19_failed_step_keeps_velocity (env : Env) (s : ADMMPDInterfaceData) (ob : Object)
    (sb : SoftBody) (d : ADMMPDInternalData) (op : Options) (dat : SolverData) (sol : Solver)
    (e : String)
    (hsb : ob.soft = some sb) (hd : s.idata = some d) (hop : d.options = some op)
    (hdat : d.data = some dat) (hsol : d.solver = some sol)
    (hf : (solve_substeps env d.mesh op (max 1 d.substeps).toNat dat d.collision []).fault
            = some e) :
    ∃ calls c,
      calls.getLast? = some c ∧ (env.solver_solve c).fault = some e ∧
      admmpd_solve env (some s) (some ob) =
        some (0,
          strcpy_error { s with idata := some { d with
            data := some { (env.solver_solve c).data with x := (env.solver_solve c).data.x_start },
            collision := (env.solver_solve c).collision } } e,
          calls) := by
  obtain ⟨c, hlast, _, _, hcf, hdata, hcol⟩ :=
    solve_substeps_fault env d.mesh op e _ dat d.collision [] hf
  rw [admmpd_solve_eq env s ob sb d op dat sol hsb hd hop hdat hsol, hf]
  generalize solve_substeps env d.mesh op (max 1 d.substeps).toNat dat d.collision [] = run
    at hlast hdata hcol
  exact ⟨run.calls, c, hlast, hcf, by rw [hdata, hcol]⟩

/-- C19, witness: the snapshotting solver faults on the second of two
substeps. -/
theorem C19_failed_step_keeps_velocity_witness :
    ∃ calls c,
      calls.getLast? = some c ∧
      ((demo_env snapshot_solve true).solver_solve c).fault = some "diverged" ∧
      admmpd_solve (demo_env snapshot_solve true) (some demo_session)
          (some (demo_object demo_softbody)) =
        some (0,
          strcpy_error { demo_session with idata := some (
             { collision := ((demo_env snapshot_solve true).solver_solve c).collision,
               mesh := some { kind := MeshKind.TriangleMesh },
               options := some demo_options,
               data := some { ((demo_env snapshot_solve true).solver_solve c).data with
                 x := ((demo_env snapshot_solve true).solver_solve c).data.x_start },
               solver := some {}, substeps := 2 } : ADMMPDInternalData) } "diverged",
          calls) :=
  C19_failed_step_keeps_velocity (demo_env snapshot_solve true) demo_session
    (demo_object demo_softbody) demo_softbody
    { collision := none, mesh := some { kind := MeshKind.TriangleMesh },
      options := some demo_options, data := some demo_data, solver := some {}, substeps := 2 }
    demo_options demo_data {} "diverged" rfl rfl rfl rfl rfl
    (by simp [demo_env, solve_substeps, snapshot_solve, demo_data])

/-! ## Obstacles -/

/-- C15.  The function `admmpd_update_obstacles` returns the session handle
unchanged when the handle, one of the three arrays, the internal data or the
collision adapter is absent; otherwise only the obstacle snapshot of the
adapter changes and it becomes exactly the five arguments.  After an
`admmpd_init` in triangle mode the adapter is absent, so the call changes
nothing. -/
theorem C15_update_obstacles (env : Env) (iface : Option ADMMPDInterfaceData)
    (in_verts_0 in_verts_1 : Option (List Rat)) (nv : Int) (in_faces : Option (List Nat))
    (nf : Int) :
    ((iface = none ∨ in_verts_0 = none ∨ in_verts_1 = none ∨ in_faces = none ∨
        iface.bind (fun s => s.idata) = none ∨
        (iface.bind (fun s => s.idata)).bind (fun d => d.collision) = none) →
      admmpd_update_obstacles iface in_verts_0 in_verts_1 nv in_faces nf = iface) ∧
    (∀ s d c v0 v1 f, iface = some s → s.idata = some d → d.collision = some c →
        in_verts_0 = some v0 → in_verts_1 = some v1 → in_faces = some f →
      admmpd_update_obstacles iface in_verts_0 in_verts_1 nv in_faces nf =
        some { s with idata := some { d with collision := some { c with
          obstacles := some { verts_0 := v0, verts_1 := v1, nv := nv, faces := f, nf := nf } } } }) ∧
    (∀ s0 ob sb vc r s', ob.soft = some sb →
        admmpd_init env (some s0) (some ob) vc env.tags.ADMMPD_INIT_MODE_TRIANGLE = some (r, s') →
      admmpd_update_obstacles (some s') in_verts_0 in_verts_1 nv in_faces nf = some s') := by
  have hnone : ∀ s : ADMMPDInterfaceData, s.idata.bind (fun d => d.collision) = none →
      admmpd_update_obstacles (some s) in_verts_0 in_verts_1 nv in_faces nf = some s := by
    intro s hs
    simp only [admmpd_update_obstacles]
    repeat' split
    all_goals simp_all
  refine ⟨?_, ?_, ?_⟩
  · intro h
    cases iface with
    | none => rfl
    | some s =>
      rcases h with h | h | h | h | h | h
      · exact absurd h (by simp)
      · subst h; rfl
      · subst h; cases in_verts_0 <;> rfl
      · subst h; cases in_verts_0 <;> cases in_verts_1 <;> rfl
      · exact hnone s (by
          simp only [Option.some_bind] at h
          rw [h]; rfl)
      · exact hnone s (by simpa using h)
  · intro s d c v0 v1 f hi hd hc h0 h1 hf
    subst hi h0 h1 hf
    simp only [admmpd_update_obstacles, hd, hc, set_obstacles]
  · intro s0 ob sb vc r s' hsb hinit
    exact hnone s' ((init_options env s0 s' ob sb vc _ r hsb hinit).2.2 rfl)

/-- C15, witness: a session with an adapter receives a new snapshot, and a
session initialized in triangle mode is left alone. -/
theorem C15_update_obstacles_witness :
    admmpd_update_obstacles (some demo_collision_session) (some [0, 0, 0]) (some [0, 0, 1]) 1
        (some []) 0 =
      some { demo_collision_session with idata := some (
         { collision := some
             { obstacles := some
                 { verts_0 := [0, 0, 0], verts_1 := [0, 0, 1], nv := 1, faces := [], nf := 0 } },
           mesh := some { kind := MeshKind.EmbeddedMesh },
           options := some demo_options, data := some demo_data, solver := some {},
           substeps := 2 } : ADMMPDInternalData) } ∧
    (∃ s', admmpd_init (demo_env steady_solve true) (some demo_session)
        (some (demo_object demo_softbody)) [] 2 = some (1, s') ∧
      admmpd_update_obstacles (some s') (some [0, 0, 0]) (some [0, 0, 1]) 1 (some []) 0
        = some s') :=
  ⟨(C15_update_obstacles (demo_env steady_solve true) (some demo_collision_session)
      (some [0, 0, 0]) (some [0, 0, 1]) 1 (some []) 0).2.1 demo_collision_session _ _ _ _ _
      rfl rfl rfl rfl rfl rfl,
   ⟨_, rfl, (C15_update_obstacles (demo_env steady_solve true) none
      (some [0, 0, 0]) (some [0, 0, 1]) 1 (some []) 0).2.2 demo_session
      (demo_object demo_softbody) demo_softbody [] 1 _ rfl rfl⟩⟩


/-! ## Pins: lemmas -/

theorem set_pin_pinned (m : Mesh) (i : Int) (q : Rat × Rat × Rat) (k : Rat) :
    pinned (set_pin m i q k) (i, q, k) := by
  unfold set_pin pinned
  split_ifs with h
  · simp only [List.any_eq_true, decide_eq_true_eq] at h
    obtain ⟨x, hx, hxi⟩ := h
    constructor
    · exact ⟨(i, q, k), List.mem_map.mpr ⟨x, hx, by simp [hxi]⟩, rfl⟩
    · intro y hy hyi
      obtain ⟨z, _, hzy⟩ := List.mem_map.mp hy
      by_cases hz : z.1 = i
      · simpa [hz] using hzy.symm
      · simp only [hz, if_false] at hzy
        subst hzy
        exact absurd hyi hz
  · simp only [List.any_eq_true, decide_eq_true_eq, not_exists, not_and] at h
    constructor
    · exact ⟨(i, q, k), by simp, rfl⟩
    · intro y hy hyi
      rcases List.mem_append.mp hy with hy | hy
      · exact absurd hyi (h y hy)
      · simpa using hy

theorem set_pin_pinned_other (m : Mesh) (i : Int) (q : Rat × Rat × Rat) (k : Rat)
    (e : Int × (Rat × Rat × Rat) × Rat) (hne : e.1 ≠ i) (h : pinned m e) :
    pinned (set_pin m i q k) e := by
  obtain ⟨⟨x, hx, hxe⟩, hall⟩ := h
  have hxi : x.1 ≠ i := by rw [hxe]; exact hne
  unfold set_pin pinned
  split_ifs with hany
  · constructor
    · exact ⟨x, List.mem_map.mpr ⟨x, hx, by simp [hxi]⟩, hxe⟩
    · intro y hy hye
      obtain ⟨z, hz, hzy⟩ := List.mem_map.mp hy
      by_cases hzi : z.1 = i
      · simp only [hzi, if_true] at hzy
        subst hzy
        exact absurd hye.symm hne
      · simp only [hzi, if_false] at hzy
        subst hzy
        exact hall z hz hye
  · constructor
    · exact ⟨x, List.mem_append.mpr (Or.inl hx), hxe⟩
    · intro y hy hye
      rcases List.mem_append.mp hy with hy | hy
      · exact hall y hy hye
      · simp only [List.mem_singleton] at hy
        subst hy
        exact absurd hye.symm hne

theorem set_pin_of_pinned (m : Mesh) (i : Int) (q : Rat × Rat × Rat) (k : Rat)
    (h : pinned m (i, q, k)) : set_pin m i q k = m := by
  obtain ⟨⟨x, hx, hxe⟩, hall⟩ := h
  have hany : m.pins.any (fun e => decide (e.1 = i)) = true := by
    simp only [List.any_eq_true, decide_eq_true_eq]
    exact ⟨x, hx, hxe⟩
  unfold set_pin
  rw [if_pos hany]
  have hmap : m.pins.map (fun e => if e.1 = i then (i, q, k) else e) = m.pins := by
    conv_rhs => rw [← List.map_id m.pins]
    apply List.map_congr_left
    intro y hy
    by_cases hyi : y.1 = i
    · simp only [hyi, if_true, id_eq]
      exact (hall y hy hyi).symm
    · simp only [hyi, if_false, id_eq]
  rw [hmap]

theorem pin_of_pinned (m : Mesh) (e : Int × (Rat × Rat × Rat) × Rat) (h : pinned m e) :
    pin_of m e.1 = some e.2 := by
  obtain ⟨⟨x, hx, hxe⟩, hall⟩ := h
  unfold pin_of
  cases hf : m.pins.find? (fun y => decide (y.1 = e.1)) with
  | none =>
    rw [List.find?_eq_none] at hf
    exact absurd (by simpa using hxe) (hf x hx)
  | some y =>
    have hy1 : y.1 = e.1 := by simpa using List.find?_some hf
    rw [hall y (List.mem_of_find?_eq_some hf) hy1]
    rfl

theorem pin_of_set_pin_other (m : Mesh) (i : Int) (q : Rat × Rat × Rat) (k : Rat) (j : Int)
    (hne : j ≠ i) : pin_of (set_pin m i q k) j = pin_of m j := by
  unfold set_pin pin_of
  split_ifs with hany
  · simp only [List.find?_map]
    have hcomp : ((fun e : Int × (Rat × Rat × Rat) × Rat => decide (e.1 = j)) ∘
        fun e => if e.1 = i then (i, q, k) else e) = fun e => decide (e.1 = j) := by
      funext y
      by_cases hyi : y.1 = i
      · simp [hyi, hne, Ne.symm hne]
      · simp [hyi]
    rw [hcomp]
    cases hf : m.pins.find? (fun e => decide (e.1 = j)) with
    | none => rfl
    | some y =>
      have hy1 : y.1 = j := by simpa using List.find?_some hf
      have hyi : y.1 ≠ i := by rw [hy1]; exact hne
      simp [hyi]
  · simp only [List.find?_append]
    have hlast : [(i, q, k)].find? (fun e => decide (e.1 = j)) = none := by
      simp [Ne.symm hne]
    rw [hlast, Option.or_none]

theorem pinned_set_pins (gk gp : List Rat) :
    ∀ (todo : List Nat) (m : Mesh), todo.Nodup →
      ∀ i ∈ todo, pinned (set_pins gk gp todo m) (goal_entry gk gp i) := by
  have keep : ∀ (todo : List Nat) (m : Mesh) (e : Int × (Rat × Rat × Rat) × Rat),
      (∀ i ∈ todo, e.1 ≠ (i : Int)) → pinned m e → pinned (set_pins gk gp todo m) e := by
    intro todo
    induction todo with
    | nil => intro m e _ h; exact h
    | cons i rest ih =>
      intro m e hne h
      simp only [set_pins, List.foldl_cons]
      exact ih _ e (fun j hj => hne j (List.mem_cons_of_mem _ hj))
        (set_pin_pinned_other m _ _ _ e (hne i (List.mem_cons_self _ _)) h)
  intro todo
  induction todo with
  | nil => intro m _ i hi; simp at hi
  | cons i rest ih =>
    intro m hnd j hj
    simp only [set_pins, List.foldl_cons]
    rcases List.mem_cons.mp hj with hj | hj
    · subst hj
      refine keep rest _ _ ?_ (set_pin_pinned m _ _ _)
      intro l hl heq
      have : j = l := by simpa [goal_entry] using heq
      subst this
      exact (List.nodup_cons.mp hnd).1 hl
    · exact ih _ (List.nodup_cons.mp hnd).2 j hj

theorem set_pins_of_pinned (gk gp : List Rat) :
    ∀ (todo : List Nat) (m : Mesh), (∀ i ∈ todo, pinned m (goal_entry gk gp i)) →
      set_pins gk gp todo m = m := by
  intro todo
  induction todo with
  | nil => intro m _; rfl
  | cons i rest ih =>
    intro m h
    simp only [set_pins, List.foldl_cons]
    have hi := set_pin_of_pinned m (goal_entry gk gp i).1 (goal_entry gk gp i).2.1
      (goal_entry gk gp i).2.2 (h i (List.mem_cons_self _ _))
    rw [hi]
    exact ih m (fun j hj => h j (List.mem_cons_of_mem _ hj))

theorem pin_of_set_pins_other (gk gp : List Rat) (j : Int) :
    ∀ (todo : List Nat) (m : Mesh), (∀ i ∈ todo, j ≠ (i : Int)) →
      pin_of (set_pins gk gp todo m) j = pin_of m j := by
  intro todo
  induction todo with
  | nil => intro m _; rfl
  | cons i rest ih =>
    intro m h
    simp only [set_pins, List.foldl_cons]
    have := ih (set_pin m (goal_entry gk gp i).1 (goal_entry gk gp i).2.1
      (goal_entry gk gp i).2.2) (fun l hl => h l (List.mem_cons_of_mem _ hl))
    simp only [set_pins] at this
    rw [this]
    exact pin_of_set_pin_other m _ _ _ j (h i (List.mem_cons_self _ _))

theorem update_goals_loop_some (gk gp : List Rat) :
    ∀ (todo : List Nat) (m m' : Mesh), update_goals_loop gk gp todo m = some m' →
      m' = set_pins gk gp todo m ∧
      ∀ m2, update_goals_loop gk gp todo m2 = some (set_pins gk gp todo m2) := by
  intro todo
  induction todo with
  | nil =>
    intro m m' h
    simp only [update_goals_loop, Option.some.injEq] at h
    exact ⟨h.symm, fun _ => rfl⟩
  | cons i rest ih =>
    intro m m' h
    simp only [update_goals_loop] at h
    split at h
    · rename_i a b c k ha hb hc hk
      have he : goal_entry gk gp i = ((i : Int), (a, b, c), k) := by
        simp only [goal_entry, List.getD_eq_getD_get?, ha, hb, hc, hk, Option.getD_some]
      obtain ⟨h1, h2⟩ := ih _ _ h
      constructor
      · rw [h1]
        simp only [set_pins, List.foldl_cons, he]
      · intro m2
        simp only [update_goals_loop, ha, hb, hc, hk]
        rw [h2]
        simp only [set_pins, List.foldl_cons, he]
    · exact absurd h (by simp)

theorem update_goals_loop_of_length (gk gp : List Rat) :
    ∀ (todo : List Nat) (m : Mesh), (∀ i ∈ todo, i < gk.length ∧ i * 3 + 2 < gp.length) →
      update_goals_loop gk gp todo m = some (set_pins gk gp todo m) := by
  intro todo
  induction todo with
  | nil => intro m _; rfl
  | cons i rest ih =>
    intro m h
    obtain ⟨h1, h2⟩ := h i (List.mem_cons_self _ _)
    have e0 : gp.get? (i * 3 + 0) = some (gp.getD (i * 3 + 0) 0) := by
      rw [List.getD_eq_getD_get?, List.get?_eq_get (by omega)]; rfl
    have e1 : gp.get? (i * 3 + 1) = some (gp.getD (i * 3 + 1) 0) := by
      rw [List.getD_eq_getD_get?, List.get?_eq_get (by omega)]; rfl
    have e2 : gp.get? (i * 3 + 2) = some (gp.getD (i * 3 + 2) 0) := by
      rw [List.getD_eq_getD_get?, List.get?_eq_get (by omega)]; rfl
    have ek : gk.get? i = some (gk.getD i 0) := by
      rw [List.getD_eq_getD_get?, List.get?_eq_get h1]; rfl
    simp only [update_goals_loop, e0, e1, e2, ek]
    rw [ih _ (fun j hj => h j (List.mem_cons_of_mem _ hj))]
    simp only [set_pins, List.foldl_cons, goal_entry]


/-! ## Pins: the claims -/

/-- C13.  On a session with a mesh and goal arrays that hold `nv` stiffnesses
and `3 * nv` coordinates, `admmpd_update_goals` replaces the mesh by the
result of the calls `set_pin (i, goal_pos[i], goal_k[i])` for `i = 0, ..,
nv-1`, one call per index in increasing order, whatever the stiffness is, and
changes nothing else.  Afterwards the pin of every vertex below `nv` is
exactly the pair supplied for it, also when the stiffness is zero, and the
pins of all other vertices are the ones held before. -/
theorem C13_update_goals_sets_every_pin (s : ADMMPDInterfaceData) (d : ADMMPDInternalData)
    (m : Mesh) (gk gp : List Rat) (nv : Int)
    (hd : s.idata = some d) (hm : d.mesh = some m)
    (hk : nv.toNat ≤ gk.length) (hp : 3 * nv.toNat ≤ gp.length) :
    admmpd_update_goals (some s) (some gk) (some gp) nv =
      some (some { s with idata := some { d with
        mesh := some (set_pins gk gp (List.range nv.toNat) m) } }) ∧
    set_pins gk gp (List.range nv.toNat) m =
      (List.range nv.toNat).foldl (fun (m : Mesh) (i : Nat) => set_pin m (i : Int)
        (gp.getD (i * 3 + 0) 0, gp.getD (i * 3 + 1) 0, gp.getD (i * 3 + 2) 0) (gk.getD i 0)) m ∧
    (∀ i : Nat, i < nv.toNat →
      pin_of (set_pins gk gp (List.range nv.toNat) m) (i : Int) =
        some ((gp.getD (i * 3 + 0) 0, gp.getD (i * 3 + 1) 0, gp.getD (i * 3 + 2) 0),
          gk.getD i 0)) ∧
    (∀ j : Int, (j < 0 ∨ nv ≤ j) →
      pin_of (set_pins gk gp (List.range nv.toNat) m) j = pin_of m j) := by
  refine ⟨?_, rfl, ?_, ?_⟩
  · have hloop := update_goals_loop_of_length gk gp (List.range nv.toNat) m (by
      intro i hi
      have := List.mem_range.mp hi
      omega)
    simp only [admmpd_update_goals, hd, hm, hloop]
  · intro i hi
    exact pin_of_pinned _ _
      (pinned_set_pins gk gp _ m (List.nodup_range _) i (List.mem_range.mpr hi))
  · intro j hj
    apply pin_of_set_pins_other
    intro i hi
    have := List.mem_range.mp hi
    omega

/-- C13, witness: two vertices; vertex 1 was pinned with stiffness 3 and is
given stiffness 0, vertex 7 lies outside the range. -/
theorem C13_update_goals_sets_every_pin_witness :
    pin_of (set_pins [1, 0] [0, 0, 0, 1, 1, 1] (List.range (2 : Int).toNat) demo_pinned_mesh)
        ((1 : Nat) : Int) =
      some ((([0, 0, 0, 1, 1, 1] : List Rat).getD (1 * 3 + 0) 0,
             ([0, 0, 0, 1, 1, 1] : List Rat).getD (1 * 3 + 1) 0,
             ([0, 0, 0, 1, 1, 1] : List Rat).getD (1 * 3 + 2) 0),
            ([1, 0] : List Rat).getD 1 0) ∧
    pin_of (set_pins [1, 0] [0, 0, 0, 1, 1, 1] (List.range (2 : Int).toNat) demo_pinned_mesh) 7
      = pin_of demo_pinned_mesh 7 :=
  have h := C13_update_goals_sets_every_pin demo_pinned_session
    { collision := none, mesh := some demo_pinned_mesh, options := some demo_options,
      data := some demo_data, solver := some {}, substeps := 2 }
    demo_pinned_mesh [1, 0] [0, 0, 0, 1, 1, 1] 2 rfl rfl (by decide) (by decide)
  ⟨h.2.2.1 1 (by decide), h.2.2.2 7 (Or.inr (by decide))⟩

/-- C14.  For every session handle and all arguments, two calls of
`admmpd_update_goals` in a row with the same arguments leave the session, and
with it every pin, exactly as one call does; when the first call reads past
the end of an array, so do the two. -/
theorem C14_update_goals_idempotent (iface : Option ADMMPDInterfaceData)
    (goal_k goal_pos : Option (List Rat)) (nv : Int) :
    (admmpd_update_goals iface goal_k goal_pos nv).bind
        (fun s' => admmpd_update_goals s' goal_k goal_pos nv)
      = admmpd_update_goals iface goal_k goal_pos nv := by
  cases iface with
  | none => cases goal_k <;> cases goal_pos <;> rfl
  | some s =>
    cases goal_k with
    | none => rfl
    | some gk =>
      cases goal_pos with
      | none => rfl
      | some gp =>
        cases hd : s.idata with
        | none => simp [admmpd_update_goals, hd]
        | some d =>
          cases hm : d.mesh with
          | none => simp [admmpd_update_goals, hd, hm]
          | some m =>
            cases hl : update_goals_loop gk gp (List.range nv.toNat) m with
            | none => simp [admmpd_update_goals, hd, hm, hl]
            | some m' =>
              obtain ⟨h1, h2⟩ := update_goals_loop_some gk gp _ m m' hl
              have hfix : set_pins gk gp (List.range nv.toNat) m' = m' := by
                apply set_pins_of_pinned
                intro i hi
                rw [h1]
                exact pinned_set_pins gk gp _ m (List.nodup_range _) i hi
              simp [admmpd_update_goals, hd, hm, hl, h2 m', hfix]


/-! ## Remeshed surface vertices -/

theorem surface_verts_changed_false (v out : List Rat) :
    ∀ ks : List Nat, surface_verts_changed v out ks = some false →
      ∀ k ∈ ks, ∃ a b, v.get? k = some a ∧ out.get? k = some b ∧ |a - b| ≤ diffeps := by
  intro ks
  induction ks with
  | nil => intro _ k hk; simp at hk
  | cons k0 rest ih =>
    intro h k hk
    simp only [surface_verts_changed] at h
    split at h
    · rename_i a b ha hb
      split_ifs at h with hgt
      · simp at h
      · rcases List.mem_cons.mp hk with hk | hk
        · subst hk
          exact ⟨a, b, ha, hb, not_lt.mp hgt⟩
        · exact ih h k hk
    · simp at h

theorem surface_verts_changed_true (v out : List Rat) :
    ∀ ks : List Nat, (∀ k ∈ ks, k < v.length ∧ k < out.length) →
      (∃ k ∈ ks, diffeps < |v.getD k 0 - out.getD k 0|) →
      surface_verts_changed v out ks = some true := by
  intro ks
  induction ks with
  | nil => intro _ h; obtain ⟨k, hk, _⟩ := h; simp at hk
  | cons k0 rest ih =>
    intro hlen h
    obtain ⟨h1, h2⟩ := hlen k0 (List.mem_cons_self _ _)
    have ea : v.get? k0 = some (v.getD k0 0) := by
      rw [List.getD_eq_getD_get?, List.get?_eq_get h1]; rfl
    have eb : out.get? k0 = some (out.getD k0 0) := by
      rw [List.getD_eq_getD_get?, List.get?_eq_get h2]; rfl
    simp only [surface_verts_changed, ea, eb]
    split_ifs with hgt
    · rfl
    · apply ih (fun k hk => hlen k (List.mem_cons_of_mem _ hk))
      obtain ⟨k, hk, hd⟩ := h
      rcases List.mem_cons.mp hk with hk | hk
      · subst hk
        exact absurd hd hgt
      · exact ⟨k, hk, hd⟩

/-- C17, counterexample.  The remesher returns the surface vertex moved by
1/2 in its last coordinate together with a count of zero tetrahedra: the
construction fails with the message "TetGen failed to generate", written
before the vertices are compared, and not with "Bad TetGen assumption". -/
theorem C17_counterexample :
    admmpd_init_with_tetgen tetgen_no_tets_env demo_session (demo_object demo_softbody) [] =
      some (Gen.ret 0, strcpy_error demo_session "TetGen failed to generate") ∧
    diffeps < |([0, 0, 0] : List Rat).getD (0 * 3 + 2) 0
                - ([0, 0, 1 / 2] : List Rat).getD (0 * 3 + 2) 0| ∧
    error_text (strcpy_error demo_session "TetGen failed to generate")
      ≠ "Bad TetGen assumption: change in surface verts".data := by
  refine ⟨rfl, ?_, ?_⟩
  · norm_num [diffeps, lt_abs]
  · decide

/-- C17, amended.  Let `v` be the surface with `K = |v| / 3` vertices handed
to the remesher and let the remesher leave the input count alone.  If
`admmpd_init_with_tetgen` returns 1, every coordinate of the first `K` output
vertices is within `1e-10` of the input coordinate.  If the remesher reports
success with a nonzero count of tetrahedra and at least `K` output vertices,
and some coordinate differs by more than `1e-10`, the function returns 0 with
the message "Bad TetGen assumption: change in surface verts" and the internal
data is left as it was, so no tetrahedral mesh is created. -/
theorem C17_vertex_preservation (env : Env) (s : ADMMPDInterfaceData) (ob : Object)
    (vc : List (Rat × Rat × Rat)) (v : List Rat) (f : List Nat) (ok : Bool)
    (tg : TetGenRemeshData)
    (hvf : vecs_from_object env ob vc = (v, f))
    (hre : env.tetgen_resmesh
        { in_verts := v, in_totverts := (v.length / 3 : Nat),
          in_faces := f, in_totfaces := (f.length / 3 : Nat) } = (ok, tg))
    (hK : tg.in_totverts = ((v.length / 3 : Nat) : Int)) :
    (∀ s', admmpd_init_with_tetgen env s ob vc = some (Gen.ret 1, s') →
      ∀ i j : Nat, i < v.length / 3 → j < 3 →
        ∃ a b, v.get? (i * 3 + j) = some a ∧ tg.out_verts.get? (i * 3 + j) = some b ∧
          |a - b| ≤ diffeps) ∧
    (ok = true → tg.out_tottets ≠ 0 → 3 * (v.length / 3) ≤ tg.out_verts.length →
      (∃ i j : Nat, i < v.length / 3 ∧ j < 3 ∧
        diffeps < |v.getD (i * 3 + j) 0 - tg.out_verts.getD (i * 3 + j) 0|) →
      admmpd_init_with_tetgen env s ob vc =
        some (Gen.ret 0, strcpy_error s "Bad TetGen assumption: change in surface verts") ∧
      (strcpy_error s "Bad TetGen assumption: change in surface verts").idata = s.idata) := by
  have hn : tg.in_totverts.toNat * 3 = v.length / 3 * 3 := by rw [hK, Int.toNat_ofNat]
  constructor
  · intro s' h i j hi hj
    simp only [admmpd_init_with_tetgen, hvf, hre] at h
    split_ifs at h with hfail
    · simp at h
    · cases hsv : surface_verts_changed v tg.out_verts (List.range (tg.in_totverts.toNat * 3)) with
      | none => simp [hsv] at h
      | some b =>
        cases b with
        | true => simp [hsv] at h
        | false =>
          apply surface_verts_changed_false v tg.out_verts _ hsv
          rw [hn, List.mem_range]
          omega
  · intro hok htets hlen hdiff
    obtain ⟨i, j, hi, hj, hd⟩ := hdiff
    have hsv : surface_verts_changed v tg.out_verts (List.range (tg.in_totverts.toNat * 3))
        = some true := by
      apply surface_verts_changed_true
      · intro k hk
        rw [hn, List.mem_range] at hk
        omega
      · exact ⟨i * 3 + j, by rw [hn, List.mem_range]; omega, hd⟩
    refine ⟨?_, rfl⟩
    simp only [admmpd_init_with_tetgen, hvf, hre, hsv]
    simp [hok, htets]

/-- C17, witness: the remesher returns the surface vertex unchanged, and
returns it moved by 1/2 in the last coordinate. -/
theorem C17_vertex_preservation_witness :
    (∃ a b, ([0, 0, 0] : List Rat).get? (0 * 3 + 2) = some a ∧
        ([0, 0, 0, 1, 1, 1] : List Rat).get? (0 * 3 + 2) = some b ∧ |a - b| ≤ diffeps) ∧
    admmpd_init_with_tetgen (tetgen_env [0, 0, 1 / 2, 1, 1, 1]) demo_session
        (demo_object demo_softbody) [] =
      some (Gen.ret 0,
        strcpy_error demo_session "Bad TetGen assumption: change in surface verts") := by
  constructor
  · have hret : ∃ s', admmpd_init_with_tetgen (tetgen_env [0, 0, 0, 1, 1, 1]) demo_session
        (demo_object demo_softbody) [] = some (Gen.ret 1, s') := by
      simp [admmpd_init_with_tetgen, vecs_from_object, tetgen_env, demo_env, demo_tags,
        demo_object, demo_session_idata, surface_verts_changed, List.range_succ, diffeps]
      norm_num
    obtain ⟨s', hs'⟩ := hret
    exact (C17_vertex_preservation (tetgen_env [0, 0, 0, 1, 1, 1]) demo_session
      (demo_object demo_softbody) [] [0, 0, 0] [] true _ rfl rfl rfl).1 s' hs' 0 2
      (by decide) (by decide)
  · exact ((C17_vertex_preservation (tetgen_env [0, 0, 1 / 2, 1, 1, 1]) demo_session
      (demo_object demo_softbody) [] [0, 0, 0] [] true _ rfl rfl rfl).2 rfl (by decide)
      (by decide) ⟨0, 2, by decide, by decide, by norm_num [diffeps, lt_abs]⟩).1


/-! ## Marshalling: lemmas -/

theorem mat_set_row3_spec (m : Mat) (i : Nat) (p : Rat × Rat × Rat) (h : has_row3 m i) :
    ∃ m', mat_set_row3 m i p = some m' ∧ mat_row3 m' i = some p ∧
      (∀ j, j ≠ i → m'.get? j = m.get? j) ∧
      (∀ j, has_row3 m j → has_row3 m' j) := by
  obtain ⟨a, b, c, rest, hrow⟩ := h
  have hi : i < m.length := by
    rcases Nat.lt_or_ge i m.length with hlt | hge
    · exact hlt
    · rw [List.get?_eq_none.mpr hge] at hrow
      exact absurd hrow (by simp)
  refine ⟨m.set i (p.1 :: p.2.1 :: p.2.2 :: rest), ?_, ?_, ?_, ?_⟩
  · simp only [mat_set_row3, hrow]
  · simp only [mat_row3, List.get?_eq_getElem?, List.getElem?_set_self hi]
  · intro j hj
    simp only [List.get?_eq_getElem?]
    exact List.getElem?_set_ne (Ne.symm hj)
  · intro j hj
    by_cases hji : j = i
    · subst hji
      exact ⟨p.1, p.2.1, p.2.2, rest, by
        simp only [List.get?_eq_getElem?, List.getElem?_set_self hi]⟩
    · obtain ⟨a', b', c', r', hr⟩ := hj
      refine ⟨a', b', c', r', ?_⟩
      simp only [List.get?_eq_getElem?] at hr ⊢
      rw [List.getElem?_set_ne (Ne.symm hji)]
      exact hr

theorem copy_from_loop_spec (pts : List BodyPoint) (s : ADMMPDInterfaceData)
    (d : ADMMPDInternalData) :
    ∀ (todo : List Nat) (dat : SolverData), todo.Nodup →
      (∀ i ∈ todo, i < pts.length ∧ has_row3 dat.x i ∧ has_row3 dat.v i) →
      ∃ x' v',
        copy_from_loop pts todo { s with idata := some { d with data := some dat } } =
          some { s with idata := some { d with data := some { dat with x := x', v := v' } } } ∧
        (∀ i ∈ todo, ∀ pt, pts.get? i = some pt →
          mat_row3 x' i = some pt.pos ∧ mat_row3 v' i = some pt.vec) ∧
        (∀ j, j ∉ todo → x'.get? j = dat.x.get? j ∧ v'.get? j = dat.v.get? j) ∧
        (∀ j, has_row3 dat.x j → has_row3 x' j) ∧ (∀ j, has_row3 dat.v j → has_row3 v' j) := by
  intro todo
  induction todo with
  | nil =>
    intro dat _ _
    exact ⟨dat.x, dat.v, rfl, by simp, fun _ _ => ⟨rfl, rfl⟩, fun _ h => h, fun _ h => h⟩
  | cons i rest ih =>
    intro dat hnd h
    obtain ⟨hi, hxi, hvi⟩ := h i (List.mem_cons_self _ _)
    obtain ⟨hirest, hndrest⟩ := List.nodup_cons.mp hnd
    obtain ⟨x1, hx1, hx1row, hx1other, hx1shape⟩ :=
      mat_set_row3_spec dat.x i (pts.get ⟨i, hi⟩).pos hxi
    obtain ⟨v1, hv1, hv1row, hv1other, hv1shape⟩ :=
      mat_set_row3_spec dat.v i (pts.get ⟨i, hi⟩).vec hvi
    have hpt : pts.get? i = some (pts.get ⟨i, hi⟩) := List.get?_eq_get hi
    obtain ⟨x', v', hloop, hin, hout, hxs, hvs⟩ := ih { dat with x := x1, v := v1 } hndrest
      (fun j hj => ⟨(h j (List.mem_cons_of_mem _ hj)).1,
        hx1shape j (h j (List.mem_cons_of_mem _ hj)).2.1,
        hv1shape j (h j (List.mem_cons_of_mem _ hj)).2.2⟩)
    refine ⟨x', v', ?_, ?_, ?_, fun j hj => hxs j (hx1shape j hj),
      fun j hj => hvs j (hv1shape j hj)⟩
    · simp only [copy_from_loop, copy_from_point, hpt, hx1, hv1]
      exact hloop
    · intro j hj pt hptj
      rcases List.mem_cons.mp hj with hj | hj
      · subst hj
        rw [hpt] at hptj
        simp only [Option.some.injEq] at hptj
        subst hptj
        obtain ⟨hxj, hvj⟩ := hout j hirest
        simp only [mat_row3] at hx1row hv1row ⊢
        rw [hxj, hvj]
        exact ⟨hx1row, hv1row⟩
      · exact hin j hj pt hptj
    · intro j hj
      have hji : j ≠ i := fun e => hj (e ▸ List.mem_cons_self _ _)
      have hjr : j ∉ rest := fun e => hj (List.mem_cons_of_mem _ e)
      obtain ⟨hxj, hvj⟩ := hout j hjr
      exact ⟨hxj.trans (hx1other j hji), hvj.trans (hv1other j hji)⟩

theorem copy_to_points_spec (s : ADMMPDInterfaceData) (d : ADMMPDInternalData)
    (dat : SolverData) (hd : s.idata = some d) (hdat : d.data = some dat) :
    ∀ (todo : List Nat) (pts : List BodyPoint), todo.Nodup →
      (∀ i ∈ todo, i < pts.length ∧ has_row3 dat.x i ∧ has_row3 dat.v i) →
      ∃ pts', copy_to_points s todo (some pts) = some (some pts') ∧
        pts'.length = pts.length ∧
        (∀ i ∈ todo, ∀ pt p q, pts.get? i = some pt → mat_row3 dat.x i = some p →
          mat_row3 dat.v i = some q → pts'.get? i = some { pt with pos := p, vec := q }) ∧
        (∀ j, j ∉ todo → pts'.get? j = pts.get? j) := by
  intro todo
  induction todo with
  | nil => intro pts _ _; exact ⟨pts, rfl, rfl, by simp, fun _ _ => rfl⟩
  | cons i rest ih =>
    intro pts hnd h
    obtain ⟨hi, ⟨a, b, c, r, hxi⟩, ⟨a', b', c', r', hvi⟩⟩ := h i (List.mem_cons_self _ _)
    obtain ⟨hirest, hndrest⟩ := List.nodup_cons.mp hnd
    have hpt : pts.get? i = some (pts.get ⟨i, hi⟩) := List.get?_eq_get hi
    have hp : mat_row3 dat.x i = some (a, b, c) := by simp only [mat_row3, hxi]
    have hq : mat_row3 dat.v i = some (a', b', c') := by simp only [mat_row3, hvi]
    obtain ⟨pts', hloop, hlen, hin, hout⟩ :=
      ih (pts.set i { pts.get ⟨i, hi⟩ with pos := (a, b, c), vec := (a', b', c') }) hndrest
        (fun j hj => by
          rw [List.length_set]
          exact h j (List.mem_cons_of_mem _ hj))
    refine ⟨pts', ?_, ?_, ?_, ?_⟩
    · simp only [copy_to_points, copy_to_point, hpt, hd, hdat, hp, hq]
      exact hloop
    · rw [hlen, List.length_set]
    · intro j hj pt p q hptj hpj hqj
      rcases List.mem_cons.mp hj with hj | hj
      · subst hj
        rw [hout j hirest]
        rw [hpt] at hptj
        rw [hp] at hpj
        rw [hq] at hqj
        simp only [Option.some.injEq] at hptj hpj hqj
        subst hptj hpj hqj
        simp only [List.get?_eq_getElem?, List.getElem?_set_self hi]
      · have hji : i ≠ j := fun e => hirest (e ▸ hj)
        apply hin j hj pt p q _ hpj hqj
        simp only [List.get?_eq_getElem?] at hptj ⊢
        rw [List.getElem?_set_ne hji]
        exact hptj
    · intro j hj
      have hji : i ≠ j := fun e => hj (e ▸ List.mem_cons_self _ _)
      have hjr : j ∉ rest := fun e => hj (List.mem_cons_of_mem _ e)
      rw [hout j hjr]
      simp only [List.get?_eq_getElem?]
      exact List.getElem?_set_ne hji

theorem copy_to_verts_total (mapped : Mesh → Mat → Nat → Rat × Rat × Rat) (m : Mesh)
    (dat : SolverData) :
    ∀ (todo : List Nat) (vc : List (Rat × Rat × Rat)), (∀ i ∈ todo, i < vc.length) →
      ∃ vc', copy_to_verts mapped m (some dat) todo vc = some vc' ∧ vc'.length = vc.length := by
  intro todo
  induction todo with
  | nil => intro vc _; exact ⟨vc, rfl, rfl⟩
  | cons i rest ih =>
    intro vc h
    have hi := h i (List.mem_cons_self _ _)
    obtain ⟨vc', h1, h2⟩ := ih (vc.set i (mapped m dat.x i)) (fun j hj => by
      rw [List.length_set]
      exact h j (List.mem_cons_of_mem _ hj))
    refine ⟨vc', ?_, by rw [h2, List.length_set]⟩
    simp only [copy_to_verts, hi, if_true]
    exact h1


theorem copy_to_spec (mapped : Mesh → Mat → Nat → Rat × Rat × Rat) (s : ADMMPDInterfaceData)
    (d : ADMMPDInternalData) (dat : SolverData) (m : Mesh)
    (vertexCos : Option (List (Rat × Rat × Rat)))
    (hd : s.idata = some d) (hdat : d.data = some dat) (hm : d.mesh = some m)
    (hx : ∀ i, i < s.out_totverts.toNat → has_row3 dat.x i ∧ has_row3 dat.v i)
    (hvc : ∀ vc rfv, vertexCos = some vc → m.rest_facet_verts = some rfv →
      rfv.length ≤ vc.length)
    (pts : List BodyPoint) (hpts : s.out_totverts.toNat ≤ pts.length) :
    ∃ pts' vc', admmpd_copy_to_bodypoint_and_object mapped (some s) (some pts) vertexCos
        = some (some pts', vc') ∧
      pts'.length = pts.length ∧
      (∀ i, i < s.out_totverts.toNat → ∀ pt p q, pts.get? i = some pt →
        mat_row3 dat.x i = some p → mat_row3 dat.v i = some q →
        pts'.get? i = some { pt with pos := p, vec := q }) ∧
      (∀ j, s.out_totverts.toNat ≤ j → pts'.get? j = pts.get? j) := by
  obtain ⟨pts', hloop, hlen, hin, hout⟩ :=
    copy_to_points_spec s d dat hd hdat (List.range s.out_totverts.toNat) pts
      (List.nodup_range _) (fun i hi => by
        have := List.mem_range.mp hi
        exact ⟨by omega, hx i this⟩)
  have hfin : ∃ vc', admmpd_copy_to_bodypoint_and_object mapped (some s) (some pts) vertexCos
      = some (some pts', vc') := by
    simp only [admmpd_copy_to_bodypoint_and_object, hloop, hd, hm]
    cases hv : vertexCos with
    | none => exact ⟨none, rfl⟩
    | some vc =>
      cases hr : m.rest_facet_verts with
      | none => exact ⟨some vc, rfl⟩
      | some rfv =>
        obtain ⟨vc', h1, _⟩ := copy_to_verts_total mapped m dat (List.range rfv.length) vc
          (fun i hi => by
            have := List.mem_range.mp hi
            have := hvc vc rfv hv hr
            omega)
        exact ⟨some vc', by simp only [hdat, h1, Option.map_some']⟩
  obtain ⟨vc', hvc'⟩ := hfin
  exact ⟨pts', vc', hvc', hlen, fun i hi => hin i (List.mem_range.mpr hi),
    fun j hj => hout j (fun h => by
      have := List.mem_range.mp h
      omega)⟩

/-! ## Marshalling: the claims -/

/-- C16.  Take a session with internal data, solver data and a mesh, whose
matrices `x` and `v` have at least `n = out_totverts` rows of three columns,
a host array of at least `n` points, and a vertex buffer that is absent or
long enough for the facet vertices.  Then `admmpd_copy_from_bodypoint`
changes only `x` and `v`, and in them only rows below `n`; a following
`admmpd_copy_to_bodypoint_and_object` into the same array returns that array
unchanged; and on any array of at least `n` points the outbound copy leaves
the points from `n` on as they were. -/
theorem C16_marshalling_round_trip (mapped : Mesh → Mat → Nat → Rat × Rat × Rat)
    (s : ADMMPDInterfaceData) (d : ADMMPDInternalData) (dat : SolverData) (m : Mesh)
    (pts : List BodyPoint) (vertexCos : Option (List (Rat × Rat × Rat)))
    (hd : s.idata = some d) (hdat : d.data = some dat) (hm : d.mesh = some m)
    (hpts : s.out_totverts.toNat ≤ pts.length)
    (hx : ∀ i, i < s.out_totverts.toNat → has_row3 dat.x i ∧ has_row3 dat.v i)
    (hvc : ∀ vc rfv, vertexCos = some vc → m.rest_facet_verts = some rfv →
      rfv.length ≤ vc.length) :
    ∃ x' v',
      admmpd_copy_from_bodypoint (some s) (some pts) =
        some (some { s with idata := some { d with data := some { dat with x := x', v := v' } } }) ∧
      (∀ j, s.out_totverts.toNat ≤ j → x'.get? j = dat.x.get? j ∧ v'.get? j = dat.v.get? j) ∧
      (∃ vc', admmpd_copy_to_bodypoint_and_object mapped
          (some { s with idata := some { d with data := some { dat with x := x', v := v' } } })
          (some pts) vertexCos = some (some pts, vc')) ∧
      (∀ pts2 : List BodyPoint, s.out_totverts.toNat ≤ pts2.length →
        ∃ pts2' vc', admmpd_copy_to_bodypoint_and_object mapped
            (some { s with idata := some { d with data := some { dat with x := x', v := v' } } })
            (some pts2) vertexCos = some (some pts2', vc') ∧
          pts2'.length = pts2.length ∧
          ∀ j, s.out_totverts.toNat ≤ j → pts2'.get? j = pts2.get? j) := by
  have hs : s = { s with idata := some { d with data := some dat } } := by
    cases s
    cases d
    simp only at hd hdat
    subst hd hdat
    rfl
  obtain ⟨x', v', hloop, hin, hout, hxs, hvs⟩ :=
    copy_from_loop_spec pts s d (List.range s.out_totverts.toNat) dat (List.nodup_range _)
      (fun i hi => by
        have := List.mem_range.mp hi
        exact ⟨by omega, hx i this⟩)
  rw [← hs] at hloop
  have hx' : ∀ i, i < s.out_totverts.toNat → has_row3 x' i ∧ has_row3 v' i :=
    fun i hi => ⟨hxs i (hx i hi).1, hvs i (hx i hi).2⟩
  refine ⟨x', v', ?_, ?_, ?_, ?_⟩
  · simp only [admmpd_copy_from_bodypoint, hloop, Option.map_some']
  · intro j hj
    exact hout j (fun h => by
      have := List.mem_range.mp h
      omega)
  · obtain ⟨pts', vc', hcall, hlen, hlow, hhigh⟩ :=
      copy_to_spec mapped
        { s with idata := some { d with data := some { dat with x := x', v := v' } } }
        { d with data := some { dat with x := x', v := v' } } { dat with x := x', v := v' } m
        vertexCos rfl rfl hm hx' hvc pts hpts
    have hsame : pts' = pts := by
      apply List.ext_get?
      intro j
      rcases Nat.lt_or_ge j s.out_totverts.toNat with hj | hj
      · have hjl : j < pts.length := by omega
        have hpt : pts.get? j = some (pts.get ⟨j, hjl⟩) := List.get?_eq_get hjl
        obtain ⟨hp, hq⟩ := hin j (List.mem_range.mpr hj) _ hpt
        rw [hlow j hj _ _ _ hpt hp hq, hpt]
      · exact hhigh j hj
    rw [hsame] at hcall
    exact ⟨vc', hcall⟩
  · intro pts2 hpts2
    obtain ⟨pts2', vc', hcall, hlen, _, hhigh⟩ :=
      copy_to_spec mapped
        { s with idata := some { d with data := some { dat with x := x', v := v' } } }
        { d with data := some { dat with x := x', v := v' } } { dat with x := x', v := v' } m
        vertexCos rfl rfl hm hx' hvc pts2 hpts2
    exact ⟨pts2', vc', hcall, hlen, hhigh⟩

/-- C16, witness: three output vertices, four host points, no vertex
buffer. -/
theorem C16_marshalling_round_trip_witness :
    ∃ x' v',
      admmpd_copy_from_bodypoint (some demo_marshal_session) (some demo_points) =
        some (some { demo_marshal_session with idata := some (
           { collision := none, mesh := some { kind := MeshKind.TriangleMesh },
             options := some demo_options,
             data := some { x := x', v := v' },
             solver := some {}, substeps := 2 } : ADMMPDInternalData) }) ∧
      (∃ vc', admmpd_copy_to_bodypoint_and_object (fun _ _ _ => (0, 0, 0))
          (some { demo_marshal_session with idata := some (
             { collision := none, mesh := some { kind := MeshKind.TriangleMesh },
               options := some demo_options,
               data := some { x := x', v := v' },
               solver := some {}, substeps := 2 } : ADMMPDInternalData) })
          (some demo_points) none = some (some demo_points, vc')) :=
  have h := C16_marshalling_round_trip (fun _ _ _ => (0, 0, 0)) demo_marshal_session
    { collision := none, mesh := some { kind := MeshKind.TriangleMesh },
      options := some demo_options,
      data := some { x := [[0, 0, 0], [0, 0, 0], [0, 0, 0]],
                     v := [[0, 0, 0], [0, 0, 0], [0, 0, 0]] },
      solver := some {}, substeps := 2 }
    { x := [[0, 0, 0], [0, 0, 0], [0, 0, 0]], v := [[0, 0, 0], [0, 0, 0], [0, 0, 0]] }
    { kind := MeshKind.TriangleMesh } demo_points none rfl rfl rfl (by decide)
    (fun i hi => by
      have hi3 : i < 3 := hi
      interval_cases i <;> exact ⟨⟨0, 0, 0, [], rfl⟩, ⟨0, 0, 0, [], rfl⟩⟩)
    (fun _ _ hv _ => absurd hv (by simp))
  h.elim fun x' hx => hx.elim fun v' hv => ⟨x', v', hv.1, hv.2.2.1⟩

/-- C20, the code on the failing inputs.  After `admmpd_dealloc` the
internal data is absent, and `admmpd_copy_to_bodypoint_and_object` on that
session dereferences it, whatever the two arrays are: the model has no
outcome for the call. -/
theorem C20_outbound_copy_dereferences_released_data
    (mapped : Mesh → Mat → Nat → Rat × Rat × Rat) (s : ADMMPDInterfaceData)
    (pts : Option (List BodyPoint)) (vertexCos : Option (List (Rat × Rat × Rat))) :
    admmpd_copy_to_bodypoint_and_object mapped (admmpd_dealloc (some s)) pts vertexCos = none := by
  simp only [admmpd_dealloc, admmpd_copy_to_bodypoint_and_object, dealloc, Int.toNat_zero,
    List.range_zero, copy_to_points]

end Admmpd

namespace WavefrontObj

/-! ## OBJ reader: the claims -/

/-- C21, the code at the failing input.  For the line made of the key "v"
and two spaces, the key is "v" and the rest is one space: a rest that holds
only spaces is returned as it is, so it begins and ends with a space and is
not empty. -/
theorem C21_blank_rest_keeps_spaces :
    split_line_key_rest [Char.ofNat 118, SPACE, SPACE] [] [] = ([Char.ofNat 118], [SPACE]) ∧
    (split_line_key_rest [Char.ofNat 118, SPACE, SPACE] [] []).2.head? = some SPACE ∧
    (split_line_key_rest [Char.ofNat 118, SPACE, SPACE] [] []).2.getLast? = some SPACE := by
  decide

/-- C22, the code at the failing input.  The digits 99999999999 are outside
the range of `int`: the conversion ends with `out_of_range` and the
destination keeps its previous value 7 instead of taking the fallback 0,
also through the overload for spans; a string without digits does give the
fallback, and a number in range gives its value. -/
theorem C22_out_of_range_keeps_destination :
    stoi "99999999999".data = Stoi.out_of_range ∧
    copy_string_to_int "99999999999".data 0 7 = 7 ∧
    copy_string_to_int_span ["99999999999".data] 0 [7] = some [7] ∧
    copy_string_to_int "abc".data 0 7 = 0 ∧
    copy_string_to_int "42".data 0 7 = 42 := by
  decide

end WavefrontObj
